import Mathlib

/-!
Shallow embedding of the Teleport RDP client's CLIPRDR (clipboard) and
RDPDR (device redirection) virtual-channel code, translated from
`src/lib/srv/desktop/rdp/rdpclient/src/{cliprdr.rs, rdpdr.rs, rdpdr/dir.rs, lib.rs}`.

Bytes are modelled as `Nat` (values `< 256` on the wire); multi-byte wire
integers are little-endian, matching the `byteorder::LittleEndian`
writes/reads in the source.  Fallible Rust code (`RdpResult`) is modelled
with `Except String`.

A few modules of the crate (`rdpdr/consts.rs`, `rdpdr/flags.rs`,
`rdpdr/path.rs`, `util.rs`, `vchan.rs`) are declared in the sources but their
files are not part of this repository snapshot; definitions taken from them
are modelled from the specification and are marked as such in their doc
comments.
-/

namespace Teleport

/-- Little-endian byte encoding of a 16-bit value (`write_u16::<LittleEndian>`). -/
def u16le (v : Nat) : List Nat := [v % 256, v / 256 % 256]

/-- Little-endian byte encoding of a 32-bit value (`write_u32::<LittleEndian>`). -/
def u32le (v : Nat) : List Nat :=
  [v % 256, v / 256 % 256, v / 2 ^ 16 % 256, v / 2 ^ 24 % 256]

/-- Little-endian byte encoding of a 64-bit value (`write_u64::<LittleEndian>`). -/
def u64le (v : Nat) : List Nat :=
  [v % 256, v / 2 ^ 8 % 256, v / 2 ^ 16 % 256, v / 2 ^ 24 % 256,
   v / 2 ^ 32 % 256, v / 2 ^ 40 % 256, v / 2 ^ 48 % 256, v / 2 ^ 56 % 256]

/-- Reinterpretation of a `u64` bit pattern as an `i64` (Rust `as i64`). -/
def u64_as_i64 (v : Nat) : Int :=
  if v < 2 ^ 63 then (v : Int) else (v : Int) - 2 ^ 64

/-- Little-endian byte encoding of a 64-bit signed value
(`write_i64::<LittleEndian>`, two's complement). -/
def i64le (v : Int) : List Nat := u64le (v % 2 ^ 64).toNat

/-- UTF-16 code units of a single character. -/
def charUtf16 (c : Char) : List Nat :=
  let v := c.toNat
  if v < 0x10000 then [v]
  else [0xD800 + (v - 0x10000) / 0x400, 0xDC00 + (v - 0x10000) % 0x400]

/-- UTF-16 code units of a string. -/
def utf16Units (s : String) : List Nat := s.data.flatMap charUtf16

/-- Modelled from the spec (`util.rs` is absent from the snapshot):
`util::to_unicode(s, with_null)` encodes `s` as UTF-16LE bytes, appending a
two-byte NUL terminator when `with_null` is set. -/
def to_unicode (s : String) (with_null : Bool) : List Nat :=
  (utf16Units s).flatMap u16le ++ (if with_null then [0, 0] else [])

/-- Modelled from the spec (`util.rs` is absent from the snapshot):
`util::unicode_size(s, with_null)` is the byte length of `to_unicode s`. -/
def unicode_size (s : String) (with_null : Bool) : Nat :=
  2 * (utf16Units s).length + (if with_null then 2 else 0)

/-! ### Byte cursor

Models `std::io::Cursor<Vec<u8>>` (the `Payload` type of the crate). -/

/-- A byte cursor: the underlying buffer together with a read position. -/
structure Cursor where
  bytes : List Nat
  pos : Nat
deriving DecidableEq, Repr

/-- Bytes from the current position to the end of the buffer. -/
def Cursor.remaining (c : Cursor) : List Nat := c.bytes.drop c.pos

/-- Read exactly `n` bytes (`read_exact`); errors when fewer remain. -/
def Cursor.read_exact (c : Cursor) (n : Nat) : Except String (List Nat × Cursor) :=
  if n ≤ c.remaining.length then
    .ok (c.remaining.take n, { c with pos := c.pos + n })
  else
    .error "failed to fill whole buffer"

/-- Read one byte (`read_u8`). -/
def Cursor.read_u8 (c : Cursor) : Except String (Nat × Cursor) :=
  match c.remaining with
  | b :: _ => .ok (b, { c with pos := c.pos + 1 })
  | [] => .error "failed to fill whole buffer"

/-- Read a little-endian `u16` (`read_u16::<LittleEndian>`). -/
def Cursor.read_u16 (c : Cursor) : Except String (Nat × Cursor) :=
  match c.remaining with
  | b0 :: b1 :: _ => .ok (b0 + 2 ^ 8 * b1, { c with pos := c.pos + 2 })
  | _ => .error "failed to fill whole buffer"

/-- Read a little-endian `u32` (`read_u32::<LittleEndian>`). -/
def Cursor.read_u32 (c : Cursor) : Except String (Nat × Cursor) :=
  match c.remaining with
  | b0 :: b1 :: b2 :: b3 :: _ =>
      .ok (b0 + 2 ^ 8 * b1 + 2 ^ 16 * b2 + 2 ^ 24 * b3, { c with pos := c.pos + 4 })
  | _ => .error "failed to fill whole buffer"

/-- Read a little-endian `u64` (`read_u64::<LittleEndian>`). -/
def Cursor.read_u64 (c : Cursor) : Except String (Nat × Cursor) :=
  match c.remaining with
  | b0 :: b1 :: b2 :: b3 :: b4 :: b5 :: b6 :: b7 :: _ =>
      .ok (b0 + 2 ^ 8 * b1 + 2 ^ 16 * b2 + 2 ^ 24 * b3 + 2 ^ 32 * b4 +
             2 ^ 40 * b5 + 2 ^ 48 * b6 + 2 ^ 56 * b7,
           { c with pos := c.pos + 8 })
  | _ => .error "failed to fill whole buffer"

/-- Advance the position by `n` bytes (`seek(SeekFrom::Current(n))`). -/
def Cursor.seek_forward (c : Cursor) (n : Nat) : Cursor := { c with pos := c.pos + n }

/-- Set the absolute position (`set_position`). -/
def Cursor.set_position (c : Cursor) (n : Nat) : Cursor := { c with pos := n }

/-! ### Virtual-channel chunking (cliprdr.rs `encode_message`)

The channel header constants come from `vchan.rs`, which is absent from the
snapshot; they are modelled from the specification:
`CHANNEL_CHUNK_LENGTH = 16384`, flags FIRST / LAST / SHOW_PROTOCOL. -/

/-- Modelled from the spec (`vchan.rs` is absent): the maximum chunk size,
16 KiB.  The source spells the constant `CHANNEL_CHUNK_LEGNTH`. -/
def CHANNEL_CHUNK_LEGNTH : Nat := 16384

/-- Modelled from the spec (`vchan.rs` is absent): the `ChannelPDUFlags`
bitflags carried in a virtual-channel PDU header, as a record of the three
flags this code uses (CHANNEL_FLAG_FIRST, CHANNEL_FLAG_LAST,
CHANNEL_FLAG_SHOW_PROTOCOL). -/
structure ChannelPDUFlags where
  first : Bool
  last : Bool
  show_protocol : Bool
deriving DecidableEq, Repr

/-- One outbound virtual-channel chunk: the channel PDU header fields
(`total_length`, `flags`) together with the slice of the inner PDU it
carries. -/
structure ChannelChunk where
  total_length : Nat
  flags : ChannelPDUFlags
  payload : List Nat
deriving DecidableEq, Repr

/-- Clipboard PDU message types (cliprdr.rs `ClipboardPDUType`). -/
inductive ClipboardPDUType
  | CB_MONITOR_READY
  | CB_FORMAT_LIST
  | CB_FORMAT_LIST_RESPONSE
  | CB_FORMAT_DATA_REQUEST
  | CB_FORMAT_DATA_RESPONSE
  | CB_TEMP_DIRECTORY
  | CB_CLIP_CAPS
  | CB_FILECONTENTS_REQUEST
  | CB_FILECONTENTS_RESPONSE
  | CB_LOCK_CLIPDATA
  | CB_UNLOCK_CLIPDATA
deriving DecidableEq, Repr

/-- Wire value of a clipboard PDU message type. -/
def ClipboardPDUType.toU16 : ClipboardPDUType → Nat
  | .CB_MONITOR_READY => 0x0001
  | .CB_FORMAT_LIST => 0x0002
  | .CB_FORMAT_LIST_RESPONSE => 0x0003
  | .CB_FORMAT_DATA_REQUEST => 0x0004
  | .CB_FORMAT_DATA_RESPONSE => 0x0005
  | .CB_TEMP_DIRECTORY => 0x0006
  | .CB_CLIP_CAPS => 0x0007
  | .CB_FILECONTENTS_REQUEST => 0x0008
  | .CB_FILECONTENTS_RESPONSE => 0x0009
  | .CB_LOCK_CLIPDATA => 0x000A
  | .CB_UNLOCK_CLIPDATA => 0x000B

/-- Clipboard header flags (cliprdr.rs `ClipboardHeaderFlags`), as a record
of the three defined bits. -/
structure ClipboardHeaderFlags where
  response_ok : Bool
  response_fail : Bool
  ascii_names : Bool
deriving DecidableEq, Repr

/-- Bit pattern of clipboard header flags
(CB_RESPONSE_OK = 1, CB_RESPONSE_FAIL = 2, CB_ASCII_NAMES = 4). -/
def ClipboardHeaderFlags.bits (f : ClipboardHeaderFlags) : Nat :=
  (if f.response_ok then 1 else 0) + (if f.response_fail then 2 else 0) +
    (if f.ascii_names then 4 else 0)

/-- Decode clipboard header flags from the wire (`from_bits`: errors when a
bit outside the defined set is present). -/
def ClipboardHeaderFlags.from_bits (v : Nat) : Except String ClipboardHeaderFlags :=
  if v < 8 then
    .ok ⟨v % 2 = 1, v / 2 % 2 = 1, v / 4 % 2 = 1⟩
  else
    .error "invalid flags in clipboard header"

/-- The clipboard PDU header (cliprdr.rs `ClipboardPDUHeader`). -/
structure ClipboardPDUHeader where
  msg_type : ClipboardPDUType
  msg_flags : ClipboardHeaderFlags
  data_len : Nat
deriving DecidableEq, Repr

/-- Wire decoding of a `ClipboardPDUType` (`ClipboardPDUType::from_u16`). -/
def ClipboardPDUType.from_u16 (v : Nat) : Option ClipboardPDUType :=
  if v = 0x0001 then some .CB_MONITOR_READY
  else if v = 0x0002 then some .CB_FORMAT_LIST
  else if v = 0x0003 then some .CB_FORMAT_LIST_RESPONSE
  else if v = 0x0004 then some .CB_FORMAT_DATA_REQUEST
  else if v = 0x0005 then some .CB_FORMAT_DATA_RESPONSE
  else if v = 0x0006 then some .CB_TEMP_DIRECTORY
  else if v = 0x0007 then some .CB_CLIP_CAPS
  else if v = 0x0008 then some .CB_FILECONTENTS_REQUEST
  else if v = 0x0009 then some .CB_FILECONTENTS_RESPONSE
  else if v = 0x000A then some .CB_LOCK_CLIPDATA
  else if v = 0x000B then some .CB_UNLOCK_CLIPDATA
  else none

/-- Encoding of the clipboard PDU header (`ClipboardPDUHeader::encode`). -/
def ClipboardPDUHeader.encode (h : ClipboardPDUHeader) : List Nat :=
  u16le h.msg_type.toU16 ++ u16le h.msg_flags.bits ++ u32le h.data_len

/-- Decoding of the clipboard PDU header (`ClipboardPDUHeader::decode`). -/
def ClipboardPDUHeader.decode (c : Cursor) : Except String (ClipboardPDUHeader × Cursor) := do
  let (typ, c) ← c.read_u16
  match ClipboardPDUType.from_u16 typ with
  | none => .error "invalid message type"
  | some msg_type => do
      let (fl, c) ← c.read_u16
      let msg_flags ← ClipboardHeaderFlags.from_bits fl
      let (data_len, c) ← c.read_u32
      .ok (⟨msg_type, msg_flags, data_len⟩, c)

/-- Clipboard header flags chosen for an outbound message
(the `msg_flags` match at the top of `encode_message`). -/
def encode_message_flags : ClipboardPDUType → ClipboardHeaderFlags
  | .CB_CLIP_CAPS => ⟨false, false, false⟩
  | .CB_TEMP_DIRECTORY => ⟨false, false, false⟩
  | .CB_LOCK_CLIPDATA => ⟨false, false, false⟩
  | .CB_UNLOCK_CLIPDATA => ⟨false, false, false⟩
  | .CB_FORMAT_DATA_REQUEST => ⟨false, false, false⟩
  | .CB_FORMAT_DATA_RESPONSE => ⟨true, false, false⟩
  | .CB_FORMAT_LIST_RESPONSE => ⟨true, false, false⟩
  | .CB_FILECONTENTS_RESPONSE => ⟨false, true, false⟩
  | _ => ⟨false, false, false⟩

/-- Whether a message type gets CHANNEL_FLAG_SHOW_PROTOCOL on every chunk
(the `channel_flags` match inside `encode_message`). -/
def show_protocol_for : ClipboardPDUType → Bool
  | .CB_FORMAT_LIST => true
  | .CB_CLIP_CAPS => true
  | .CB_FORMAT_DATA_REQUEST => true
  | .CB_FORMAT_DATA_RESPONSE => true
  | _ => false

/-- The chunk-splitting loop of `encode_message`.  `fuel` bounds the number
of iterations; `encode_message` supplies `inner.length`, which is enough
because every iteration consumes at least one byte. -/
def chunkify_go (sp : Bool) (total_len : Nat) : Nat → List Nat → Bool → List ChannelChunk
  | _, [], _ => []
  | 0, _, _ => []
  | fuel + 1, inner, first =>
      let i := min inner.length CHANNEL_CHUNK_LEGNTH
      ⟨total_len, ⟨first, inner.drop i = [], sp⟩, inner.take i⟩ ::
        chunkify_go sp total_len fuel (inner.drop i) false

/-- cliprdr.rs `encode_message`: wraps a payload in the clipboard header and
splits the result into virtual-channel chunks of at most
CHANNEL_CHUNK_LEGNTH bytes, repeating the total length on each chunk. -/
def encode_message (msg_type : ClipboardPDUType) (payload : List Nat) : List ChannelChunk :=
  let inner :=
    (ClipboardPDUHeader.encode ⟨msg_type, encode_message_flags msg_type, payload.length⟩) ++
      payload
  chunkify_go (show_protocol_for msg_type) (inner.length % 2 ^ 32) inner.length inner true

/-! ### Clipboard client state and operations (cliprdr.rs `Client`) -/

/-- Association-list lookup for the `HashMap`s of the source. -/
def alistLookup {α : Type} (t : List (Nat × α)) (k : Nat) : Option α :=
  (t.find? (fun p => p.1 == k)).map (·.2)

/-- Association-list insert (replacing any previous binding, as
`HashMap::insert` does). -/
def alistInsert {α : Type} (t : List (Nat × α)) (k : Nat) (v : α) : List (Nat × α) :=
  (k, v) :: t.filter (fun p => p.1 != k)

/-- Association-list removal (`HashMap::remove`). -/
def alistRemove {α : Type} (t : List (Nat × α)) (k : Nat) : List (Nat × α) :=
  t.filter (fun p => p.1 != k)

/-- A parsed clipboard file descriptor (cliprdr.rs `FileDescriptor`).  The
file name is kept as its UTF-16 code units. -/
structure FileDescriptor where
  flags : Nat
  file_attributes : Nat
  last_write_time : Nat
  file_size : Nat
  file_name : List Nat
deriving DecidableEq, Repr

/-- The clipboard client state (cliprdr.rs `Client`, with its
`PendingData` and `FileListManager` inlined as fields). -/
structure ClipboardClient where
  clipboard : List (Nat × List Nat)
  pending_data : List Nat
  pending_total_length : Nat
  pending_clipboard_header : Option ClipboardPDUHeader
  is_expecting_file_list : Bool
  file_list : List FileDescriptor
deriving DecidableEq, Repr

/-- cliprdr.rs `Client::new`: the initial clipboard client state. -/
def ClipboardClient.new : ClipboardClient :=
  { clipboard := []
    pending_data := []
    pending_total_length := 0
    pending_clipboard_header := none
    is_expecting_file_list := false
    file_list := [] }

/-- CF_OEMTEXT clipboard format id (cliprdr.rs `ClipboardFormatId`). -/
def CF_OEMTEXT : Nat := 7

/-- Carriage return byte, as in `update_clipboard`. -/
def CR : Nat := 13

/-- Line feed byte, as in `update_clipboard`. -/
def LF : Nat := 10

/-- The LF to CRLF conversion loop of `Client::update_clipboard`.  `prev` is
the previous byte of the ORIGINAL data (`none` at index 0): a CR is inserted
before an LF exactly when `prev` is not CR. -/
def lf_to_crlf_loop (prev : Option Nat) : List Nat → List Nat
  | [] => []
  | b :: rest =>
      if b = LF then
        (if prev ≠ some CR then [CR, LF] else [LF]) ++ lf_to_crlf_loop (some LF) rest
      else
        b :: lf_to_crlf_loop (some b) rest

/-- The bytes `Client::update_clipboard` caches for an input: the CRLF
conversion, then a NUL terminator appended when the converted data is
non-empty and does not already end in NUL. -/
def update_clipboard_converted (data : List Nat) : List Nat :=
  let converted := lf_to_crlf_loop none data
  match converted.getLast? with
  | none => converted
  | some b => if b ≠ 0 then converted ++ [0] else converted

/-- A CLIPRDR_LONG_FORMAT_NAMES entry (cliprdr.rs `LongFormatName`); the
name is kept as UTF-16 code units. -/
structure LongFormatName where
  format_id : Nat
  format_name : Option (List Nat)
deriving DecidableEq, Repr

/-- `LongFormatName::id`: a long format name with no name. -/
def LongFormatName.id (i : Nat) : LongFormatName := ⟨i, none⟩

/-- `LongFormatName::encode`: format id, then the UTF-16LE name (possibly
empty) with its terminating null character. -/
def LongFormatName.encode (n : LongFormatName) : List Nat :=
  u32le n.format_id ++
    (match n.format_name with
     | none => u16le 0
     | some units => units.flatMap u16le ++ u16le 0)

/-- `FormatListPDU::<LongFormatName>::encode`: concatenation of the entries. -/
def format_list_encode (names : List LongFormatName) : List Nat :=
  names.flatMap LongFormatName.encode

/-- cliprdr.rs `Client::update_clipboard`: caches the converted bytes under
CF_OEMTEXT and returns the encoded FORMAT_LIST advertising that format. -/
def update_clipboard (cli : ClipboardClient) (data : List Nat) :
    ClipboardClient × List ChannelChunk :=
  ({ cli with
      clipboard := alistInsert cli.clipboard CF_OEMTEXT (update_clipboard_converted data) },
   encode_message .CB_FORMAT_LIST (format_list_encode [LongFormatName.id CF_OEMTEXT]))

/-- cliprdr.rs `read_unicode_to_string` applied to the raw pair stream: the
UTF-16 code units up to (excluding) a `[0,0]` terminator, together with the
number of bytes consumed (the terminator counts; a trailing odd byte does
not). -/
def read_unicode_units : List Nat → List Nat × Nat
  | b0 :: b1 :: rest =>
      if b0 = 0 ∧ b1 = 0 then ([], 2)
      else
        let r := read_unicode_units rest
        ((b0 + 2 ^ 8 * b1) :: r.1, r.2 + 2)
  | _ => ([], 0)

/-- cliprdr.rs `read_unicode_to_string` on a cursor: pairs are taken from
the full underlying buffer starting at pair index `pos / 2`, and the cursor
position advances by the number of bytes consumed. -/
def Cursor.read_unicode_to_string (c : Cursor) : List Nat × Cursor :=
  let r := read_unicode_units (c.bytes.drop (2 * (c.pos / 2)))
  (r.1, { c with pos := c.pos + r.2 })

/-- `LongFormatName::decode`: a format id followed by a null-terminated
UTF-16 name (empty name decodes to `none`). -/
def LongFormatName.decode (c : Cursor) : Except String (LongFormatName × Cursor) := do
  let (format_id, c) ← c.read_u32
  let (name, c) := c.read_unicode_to_string
  .ok (⟨format_id, if name.isEmpty then none else some name⟩, c)

/-- The `while` loop of `FormatListPDU::<LongFormatName>::decode`, reading
names while fewer than `length` bytes have been consumed since `startpos`.
`fuel` bounds the iterations; each successful iteration consumes at least
four bytes, so `length` iterations always suffice. -/
def format_list_decode_go :
    Nat → Cursor → Nat → Nat → Except String (List LongFormatName × Cursor)
  | 0, c, _, _ => .ok ([], c)
  | fuel + 1, c, startpos, length =>
      if c.pos - startpos < length then do
        let (n, c) ← LongFormatName.decode c
        let (rest, c) ← format_list_decode_go fuel c startpos length
        .ok (n :: rest, c)
      else
        .ok ([], c)

/-- `FormatListPDU::<LongFormatName>::decode`. -/
def format_list_decode (c : Cursor) (length : Nat) :
    Except String (List LongFormatName × Cursor) :=
  format_list_decode_go length c c.pos length

/-- The general clipboard capability set (cliprdr.rs
`GeneralClipboardCapabilitySet`); the flags are kept as the raw `u32` whose
defined bits are 0x2, 0x4, 0x8, 0x10, 0x20. -/
structure GeneralClipboardCapabilitySet where
  version : Nat
  flags : Nat
deriving DecidableEq, Repr

/-- `GeneralClipboardCapabilitySet::decode`. -/
def GeneralClipboardCapabilitySet.decode (c : Cursor) :
    Except String (GeneralClipboardCapabilitySet × Cursor) := do
  let (set_type, c) ← c.read_u16
  if set_type ≠ 1 then .error "expected general capability set"
  else do
    let (length, c) ← c.read_u16
    if length ≠ 12 then .error "expected 12 bytes for the general capability set"
    else do
      let (version, c) ← c.read_u32
      let (fl, c) ← c.read_u32
      if fl < 0x40 ∧ fl % 2 = 0 then .ok (⟨version, fl⟩, c)
      else .error "invalid flags in general capability set"

/-- cliprdr.rs `ClipboardCapabilitiesPDU`. -/
structure ClipboardCapabilitiesPDU where
  general : Option GeneralClipboardCapabilitySet
deriving DecidableEq, Repr

/-- `ClipboardCapabilitiesPDU::decode`. -/
def ClipboardCapabilitiesPDU.decode (c : Cursor) :
    Except String (ClipboardCapabilitiesPDU × Cursor) := do
  let (count, c) ← c.read_u16
  let (_, c) ← c.read_u16
  if count = 0 then .ok (⟨none⟩, c)
  else if count = 1 then do
    let (g, c) ← GeneralClipboardCapabilitySet.decode c
    .ok (⟨some g⟩, c)
  else .error "expected 0 or 1 capabilities"

/-- `CB_CAPS_VERSION_2`. -/
def CB_CAPS_VERSION_2 : Nat := 2

/-- `ClipboardCapabilitiesPDU::encode`. -/
def ClipboardCapabilitiesPDU.encode (p : ClipboardCapabilitiesPDU) : List Nat :=
  u16le (match p.general with | some _ => 1 | none => 0) ++ u16le 0 ++
    (match p.general with
     | some set => u16le 1 ++ u16le 12 ++ u32le CB_CAPS_VERSION_2 ++ u32le set.flags
     | none => [])

/-- The name `"FileGroupDescriptorW"` as UTF-16 code units
(`CLIPBOARD_FORMAT_NAME_FILE_LIST`). -/
def CLIPBOARD_FORMAT_NAME_FILE_LIST : List Nat := utf16Units "FileGroupDescriptorW"

/-- `Client::handle_monitor_ready`: the responses to CB_MONITOR_READY — our
capabilities (CB_USE_LONG_FORMAT_NAMES 0x2 and CB_STREAM_FILECLIP_ENABLED
0x4) followed by a FORMAT_LIST with the single id-0 long format name. -/
def handle_monitor_ready_msgs : List ChannelChunk :=
  encode_message .CB_CLIP_CAPS (ClipboardCapabilitiesPDU.encode ⟨some ⟨CB_CAPS_VERSION_2, 0x2 + 0x4⟩⟩) ++
    encode_message .CB_FORMAT_LIST (format_list_encode [LongFormatName.id 0])

/-- The known `FileDescriptorFlags` bits (`from_bits_truncate` mask). -/
def FILE_DESCRIPTOR_FLAGS_MASK : Nat := 0x00000004 + 0x00000040 + 0x00000020 + 0x00004000

/-- The known `FileAttributesFlags` bits (`from_bits_truncate` mask). -/
def FILE_ATTRIBUTES_FLAGS_MASK : Nat := 0x1 + 0x2 + 0x4 + 0x10 + 0x20 + 0x80

/-- The per-descriptor loop of `Client::handle_file_list`: parses `count`
fixed 592-byte descriptors, truncating unknown flag bits, combining the
split file size, and unconditionally advancing to the next descriptor. -/
def handle_file_list_go :
    Nat → Cursor → List FileDescriptor → Except String (Cursor × List FileDescriptor)
  | 0, c, acc => .ok (c, acc)
  | n + 1, c, acc => do
      let orig_pos := c.pos
      let (flagsRaw, c) ← c.read_u32
      let c := c.seek_forward 32
      let (attrsRaw, c) ← c.read_u32
      let c := c.seek_forward 16
      let (last_write_time, c) ← c.read_u64
      let (file_size_high, c) ← c.read_u32
      let (file_size_low, c) ← c.read_u32
      let (file_name, c) := c.read_unicode_to_string
      let c := c.set_position (orig_pos + 592)
      handle_file_list_go n c
        (acc ++ [{ flags := flagsRaw &&& FILE_DESCRIPTOR_FLAGS_MASK
                   file_attributes := attrsRaw &&& FILE_ATTRIBUTES_FLAGS_MASK
                   last_write_time
                   file_size := 2 ^ 32 * file_size_high + file_size_low
                   file_name }])

/-- cliprdr.rs `Client::handle_file_list`: parses a file list out of a
FORMAT_DATA_RESPONSE payload, appends the descriptors to the client's
`file_list`, and produces an empty payload for the callback. -/
def handle_file_list (cli : ClipboardClient) (data : List Nat) :
    Except String (ClipboardClient × List Nat) := do
  let c : Cursor := ⟨data, 0⟩
  let (file_list_len, c) ← c.read_u32
  let (_, descs) ← handle_file_list_go file_list_len c []
  .ok ({ cli with file_list := cli.file_list ++ descs }, [])

/-- cliprdr.rs `Client::handle_format_data_response` (reached only when the
header carries CB_RESPONSE_OK): reads the copied bytes, parses a file list
when one is expected, trims a single trailing NUL, and surfaces the result
through the `on_remote_copy` callback (modelled as the third component of
the result). -/
def handle_format_data_response (cli : ClipboardClient) (payload : Cursor) (length : Nat) :
    Except String (ClipboardClient × List ChannelChunk × List (List Nat)) := do
  let (data, _) ← payload.read_exact length
  let data_len := data.length
  let (cli, text) ←
    if cli.is_expecting_file_list then handle_file_list cli data
    else .ok (cli, data)
  let text :=
    match text.getLast? with
    | some 0 => text.take (data_len - 1)
    | _ => text
  .ok (cli, [], [text])

/-- The per-name loop of `Client::handle_format_list`: CF_OEMTEXT clears the
expecting-file-list flag and requests the data; the literal
`FileGroupDescriptorW` name sets the flag and requests the data; everything
else is ignored. -/
def handle_format_list_go (cli : ClipboardClient) (msgs : List ChannelChunk) :
    List LongFormatName → ClipboardClient × List ChannelChunk
  | [] => (cli, msgs)
  | name :: rest =>
      if name.format_id = CF_OEMTEXT then
        handle_format_list_go
          { cli with is_expecting_file_list := false }
          (msgs ++ encode_message .CB_FORMAT_DATA_REQUEST (u32le name.format_id)) rest
      else
        match name.format_name with
        | some fname =>
            if fname = CLIPBOARD_FORMAT_NAME_FILE_LIST then
              handle_format_list_go
                { cli with is_expecting_file_list := true }
                (msgs ++ encode_message .CB_FORMAT_DATA_REQUEST (u32le name.format_id)) rest
            else handle_format_list_go cli msgs rest
        | none => handle_format_list_go cli msgs rest

/-- cliprdr.rs `Client::handle_format_list`: acknowledges with a
FORMAT_LIST_RESPONSE and requests the data of each supported format. -/
def handle_format_list (cli : ClipboardClient) (payload : Cursor) (length : Nat) :
    Except String (ClipboardClient × List ChannelChunk × List (List Nat)) := do
  let (names, _) ← format_list_decode payload length
  let r := handle_format_list_go cli (encode_message .CB_FORMAT_LIST_RESPONSE []) names
  .ok (r.1, r.2, [])

/-- cliprdr.rs `Client::handle_format_data_request`: serves the cached bytes
for the requested format, or fails with an invalid-data error when the
format is not cached. -/
def handle_format_data_request (cli : ClipboardClient) (payload : Cursor) :
    Except String (ClipboardClient × List ChannelChunk × List (List Nat)) := do
  let (format_id, _) ← payload.read_u32
  match alistLookup cli.clipboard format_id with
  | some d => .ok (cli, encode_message .CB_FORMAT_DATA_RESPONSE d, [])
  | none => .error "clipboard does not contain data for format"

/-- cliprdr.rs `Client::handle_message`: dispatches one reassembled
clipboard PDU.  The result carries the updated client, the outbound chunks,
and the list of `on_remote_copy` callback invocations. -/
def handle_message (cli : ClipboardClient) (header : ClipboardPDUHeader) (payload : Cursor) :
    Except String (ClipboardClient × List ChannelChunk × List (List Nat)) :=
  match header.msg_type with
  | .CB_CLIP_CAPS => do
      let _ ← ClipboardCapabilitiesPDU.decode payload
      .ok (cli, [], [])
  | .CB_MONITOR_READY => .ok (cli, handle_monitor_ready_msgs, [])
  | .CB_FORMAT_LIST => handle_format_list cli payload header.data_len
  | .CB_FORMAT_LIST_RESPONSE => .ok (cli, [], [])
  | .CB_FORMAT_DATA_REQUEST => handle_format_data_request cli payload
  | .CB_FORMAT_DATA_RESPONSE =>
      if header.msg_flags.response_ok then
        handle_format_data_response cli payload header.data_len
      else
        .ok (cli, [], [])
  | _ => .ok (cli, [], [])

/-- The tail of `Client::read`: when the current chunk carries
CHANNEL_FLAG_LAST and a clipboard header is pending, the buffered bytes are
taken as the full message and dispatched; otherwise nothing happens. -/
def client_read_finish (cli : ClipboardClient) (flags : ChannelPDUFlags) :
    Except String (ClipboardClient × List ChannelChunk × List (List Nat)) :=
  if flags.last ∧ cli.pending_clipboard_header.isSome then
    match cli.pending_clipboard_header with
    | some header =>
        handle_message
          { cli with pending_data := [], pending_clipboard_header := none }
          header ⟨cli.pending_data, 0⟩
    | none => .ok (cli, [], [])
  else
    .ok (cli, [], [])

/-- cliprdr.rs `Client::read`: processes one inbound virtual-channel chunk,
given the already-decoded channel PDU header (`pdu_length`, `flags` — the
header decode itself lives in the absent `vchan.rs`) and the bytes that
follow it.  On CHANNEL_FLAG_FIRST the pending buffer is reset and the
clipboard header is decoded; every chunk's remaining bytes are appended; on
CHANNEL_FLAG_LAST with a pending header the message is dispatched. -/
def client_read (cli : ClipboardClient) (pdu_length : Nat) (flags : ChannelPDUFlags)
    (rest : List Nat) :
    Except String (ClipboardClient × List ChannelChunk × List (List Nat)) :=
  if flags.first then
    match ClipboardPDUHeader.decode ⟨rest, 0⟩ with
    | .error e => .error e
    | .ok (header, c) =>
        client_read_finish
          { cli with
              pending_data := c.remaining
              pending_total_length := pdu_length
              pending_clipboard_header := some header }
          flags
  else
    client_read_finish { cli with pending_data := cli.pending_data ++ rest } flags

/-! ### RDPDR: shared constants and TDP records

The crate's `rdpdr/consts.rs`, `rdpdr/flags.rs` and `rdpdr/path.rs` are
declared but absent from this snapshot; the enumerations and flag sets
below are modelled from the specification (and the MS-RDPEFS / MS-FSCC
values the source's doc comments reference). -/

/-- TDP file type (lib.rs `FileType`). -/
inductive FileType
  | File
  | Directory
deriving DecidableEq, Repr

/-- TDP error code (lib.rs `TdpErrCode`). -/
inductive TdpErrCode
  | Nil
  | Failed
  | DoesNotExist
  | AlreadyExists
deriving DecidableEq, Repr

/-- Modelled from the spec (`consts.rs` is absent): the TDP false byte. -/
def TDP_FALSE : Nat := 0

/-- Modelled from the spec (`consts.rs` is absent): the NTSTATUS values this
client produces. -/
inductive NTSTATUS
  | STATUS_SUCCESS
  | STATUS_UNSUCCESSFUL
  | STATUS_NOT_SUPPORTED
  | STATUS_NO_MORE_FILES
  | STATUS_OBJECT_NAME_COLLISION
  | STATUS_ACCESS_DENIED
  | STATUS_NOT_A_DIRECTORY
  | STATUS_NO_SUCH_FILE
  | STATUS_DIRECTORY_NOT_EMPTY
deriving DecidableEq, Repr

/-- Modelled from the spec (`consts.rs` is absent): the standard 32-bit
values of the NTSTATUS codes above, emitted little-endian on the wire. -/
def NTSTATUS.to_u32 : NTSTATUS → Nat
  | .STATUS_SUCCESS => 0x00000000
  | .STATUS_UNSUCCESSFUL => 0xC0000001
  | .STATUS_NOT_SUPPORTED => 0xC00000BB
  | .STATUS_NO_MORE_FILES => 0x80000006
  | .STATUS_OBJECT_NAME_COLLISION => 0xC0000035
  | .STATUS_ACCESS_DENIED => 0xC0000022
  | .STATUS_NOT_A_DIRECTORY => 0xC0000103
  | .STATUS_NO_SUCH_FILE => 0xC000000F
  | .STATUS_DIRECTORY_NOT_EMPTY => 0xC0000101

/-- Modelled from the spec (`consts.rs` is absent): the IRP major functions
of MS-RDPEFS. -/
inductive MajorFunction
  | IRP_MJ_CREATE
  | IRP_MJ_CLOSE
  | IRP_MJ_READ
  | IRP_MJ_WRITE
  | IRP_MJ_DEVICE_CONTROL
  | IRP_MJ_QUERY_VOLUME_INFORMATION
  | IRP_MJ_SET_VOLUME_INFORMATION
  | IRP_MJ_QUERY_INFORMATION
  | IRP_MJ_SET_INFORMATION
  | IRP_MJ_DIRECTORY_CONTROL
  | IRP_MJ_LOCK_CONTROL
deriving DecidableEq, Repr

/-- Modelled from the spec (`consts.rs` is absent): the IRP minor functions
(meaningful only under IRP_MJ_DIRECTORY_CONTROL). -/
inductive MinorFunction
  | IRP_MN_NONE
  | IRP_MN_QUERY_DIRECTORY
  | IRP_MN_NOTIFY_CHANGE_DIRECTORY
deriving DecidableEq, Repr

/-- Modelled from the spec (`flags.rs` is absent): the CreateDisposition of
a Device Create Request, as the six-value enumeration the spec's
disposition matrix is written over. -/
inductive CreateDisposition
  | FILE_SUPERSEDE
  | FILE_OPEN
  | FILE_CREATE
  | FILE_OPEN_IF
  | FILE_OVERWRITE
  | FILE_OVERWRITE_IF
deriving DecidableEq, Repr

/-- Modelled from the spec (`flags.rs` is absent): the CreateOptions bits the
directory client inspects (`contains` checks on FILE_DIRECTORY_FILE and
FILE_NON_DIRECTORY_FILE). -/
structure CreateOptions where
  file_directory_file : Bool
  file_non_directory_file : Bool
deriving DecidableEq, Repr

/-- Modelled from the spec (`flags.rs` is absent): the Information values of
a Device Create Response. -/
inductive Information
  | FILE_SUPERSEDED
  | FILE_OPENED
  | FILE_OVERWRITTEN
deriving DecidableEq, Repr

/-- Modelled from the spec (`flags.rs` is absent): the MS-RDPEFS bit values
of `Information` (written as a single byte in the response). -/
def Information.bits : Information → Nat
  | .FILE_SUPERSEDED => 0x00000000
  | .FILE_OPENED => 0x00000001
  | .FILE_OVERWRITTEN => 0x00000003

/-- Modelled from the spec (`consts.rs` is absent): the MS-FSCC file system
information class levels. -/
inductive FileSystemInformationClassLevel
  | FileFsVolumeInformation
  | FileFsLabelInformation
  | FileFsSizeInformation
  | FileFsDeviceInformation
  | FileFsAttributeInformation
  | FileFsControlInformation
  | FileFsFullSizeInformation
  | FileFsObjectIdInformation
  | FileFsDriverPathInformation
  | FileFsVolumeFlagsInformation
  | FileFsSectorSizeInformation
deriving DecidableEq, Repr

/-- Modelled from the spec (`consts.rs` is absent): wire decoding of an
MS-FSCC file system information class level
(`FileSystemInformationClassLevel::from_u32`). -/
def FileSystemInformationClassLevel.from_u32 (v : Nat) :
    Option FileSystemInformationClassLevel :=
  if v = 1 then some .FileFsVolumeInformation
  else if v = 2 then some .FileFsLabelInformation
  else if v = 3 then some .FileFsSizeInformation
  else if v = 4 then some .FileFsDeviceInformation
  else if v = 5 then some .FileFsAttributeInformation
  else if v = 6 then some .FileFsControlInformation
  else if v = 7 then some .FileFsFullSizeInformation
  else if v = 8 then some .FileFsObjectIdInformation
  else if v = 9 then some .FileFsDriverPathInformation
  else if v = 10 then some .FileFsVolumeFlagsInformation
  else if v = 11 then some .FileFsSectorSizeInformation
  else none

/-- Modelled from the spec (`consts.rs` is absent): the MS-FSCC file
information class levels this client handles. -/
inductive FileInformationClassLevel
  | FileBasicInformation
  | FileStandardInformation
  | FileAttributeTagInformation
  | FileBothDirectoryInformation
  | FileDirectoryInformation
  | FileFullDirectoryInformation
  | FileNamesInformation
  | FileEndOfFileInformation
  | FileDispositionInformation
  | FileRenameInformation
  | FileAllocationInformation
deriving DecidableEq, Repr

/-- Modelled from the spec (`path.rs` is absent): a POSIX path, as carried in
TDP messages. -/
structure UnixPath where
  path : String
deriving DecidableEq, Repr

/-- A Windows path as received in RDP requests (rdpdr.rs `WindowsPath`). -/
structure WindowsPath where
  path : String
deriving DecidableEq, Repr

/-- Modelled from the spec (`path.rs` is absent): converting a Windows path
to a POSIX path replaces backslashes with slashes. -/
def UnixPath.fromWindows (p : WindowsPath) : UnixPath :=
  ⟨⟨p.path.data.map (fun c => if c = '\\' then '/' else c)⟩⟩

/-- Characters after the final slash of a path (helper for
`UnixPath::last`). -/
def lastComponentAux : List Char → List Char → List Char
  | acc, [] => acc
  | _, '/' :: rest => lastComponentAux [] rest
  | acc, c :: rest => lastComponentAux (acc ++ [c]) rest

/-- Modelled from the spec (`path.rs` is absent): the last component of a
POSIX path, used by `FileSystemObject::name`.  Splitting on the separator
always yields at least one (possibly empty) component, so the name is
total. -/
def UnixPath.last (p : UnixPath) : String := ⟨lastComponentAux [] p.path.data⟩

/-- TDP file system object (lib.rs `FileSystemObject`). -/
structure FileSystemObject where
  last_modified : Nat
  size : Nat
  file_type : FileType
  is_empty : Nat
  path : UnixPath
deriving DecidableEq, Repr

/-- lib.rs `FileSystemObject::name`: the last component of the path. -/
def FileSystemObject.name (fso : FileSystemObject) : String := fso.path.last

/-- rdpdr.rs `to_windows_time`: milliseconds since the UNIX epoch converted
to a Windows filetime (100ns ticks since 1601-01-01), computed in `u64`
arithmetic and reinterpreted as `i64`. -/
def to_windows_time (tdp_time_ms : Nat) : Int :=
  u64_as_i64 ((tdp_time_ms / 1000 * 10000000 + 116444736000000000) % 2 ^ 64)

/-- `i64::try_from` on a `u64` value. -/
def i64_try_from_u64 (v : Nat) : Except String Int :=
  if v < 2 ^ 63 then .ok (v : Int) else .error "out of range integral type conversion"

/-! ### RDPDR request / response records (rdpdr.rs) -/

/-- rdpdr.rs `DeviceIoRequest` (DR_DEVICE_IOREQUEST). -/
structure DeviceIoRequest where
  device_id : Nat
  file_id : Nat
  completion_id : Nat
  major_function : MajorFunction
  minor_function : MinorFunction
deriving DecidableEq, Repr

/-- rdpdr.rs `DeviceIoResponse` (DR_DEVICE_IOCOMPLETION); `io_status` is the
32-bit NTSTATUS value. -/
structure DeviceIoResponse where
  device_id : Nat
  completion_id : Nat
  io_status : Nat
deriving DecidableEq, Repr

/-- `DeviceIoResponse::new`: echoes device and completion ids. -/
def DeviceIoResponse.new (req : DeviceIoRequest) (io_status : Nat) : DeviceIoResponse :=
  { device_id := req.device_id, completion_id := req.completion_id, io_status }

/-- `DeviceIoResponse::encode`. -/
def DeviceIoResponse.encode (r : DeviceIoResponse) : List Nat :=
  u32le r.device_id ++ u32le r.completion_id ++ u32le r.io_status

/-- rdpdr.rs `DeviceControlRequest` (DR_CONTROL_REQ). -/
structure DeviceControlRequest where
  header : DeviceIoRequest
  output_buffer_length : Nat
  input_buffer_length : Nat
  io_control_code : Nat
  padding : List Nat
deriving DecidableEq, Repr

/-- `DeviceControlRequest::decode`. -/
def DeviceControlRequest.decode (header : DeviceIoRequest) (payload : Cursor) :
    Except String (DeviceControlRequest × Cursor) := do
  let (output_buffer_length, payload) ← payload.read_u32
  let (input_buffer_length, payload) ← payload.read_u32
  let (io_control_code, payload) ← payload.read_u32
  let (padding, payload) ← payload.read_exact 20
  .ok (⟨header, output_buffer_length, input_buffer_length, io_control_code, padding⟩, payload)

/-- rdpdr.rs `DeviceCreateRequest` (DR_CREATE_REQ); the flag words the
directory client never inspects are kept as raw values. -/
structure DeviceCreateRequest where
  device_io_request : DeviceIoRequest
  desired_access : Nat
  allocation_size : Nat
  file_attributes : Nat
  shared_access : Nat
  create_disposition : CreateDisposition
  create_options : CreateOptions
  path_length : Nat
  path : WindowsPath
deriving DecidableEq, Repr

/-- rdpdr.rs `DeviceCreateResponse` (DR_CREATE_RSP). -/
structure DeviceCreateResponse where
  device_io_reply : DeviceIoResponse
  file_id : Nat
  information : Information
deriving DecidableEq, Repr

/-- `DeviceCreateResponse::new`: the Information field is FILE_SUPERSEDED on
any non-success status or for dispositions SUPERSEDE / OPEN / CREATE /
OVERWRITE, FILE_OPENED for FILE_OPEN_IF, and FILE_OVERWRITTEN for
FILE_OVERWRITE_IF (the source's final `panic!` branch is unreachable over
the six dispositions). -/
def DeviceCreateResponse.new (req : DeviceCreateRequest) (io_status : NTSTATUS)
    (file_id : Nat) : DeviceCreateResponse :=
  let information : Information :=
    if io_status ≠ .STATUS_SUCCESS ∨
        req.create_disposition ∈
          [CreateDisposition.FILE_SUPERSEDE, .FILE_OPEN, .FILE_CREATE, .FILE_OVERWRITE] then
      .FILE_SUPERSEDED
    else if req.create_disposition = .FILE_OPEN_IF then
      .FILE_OPENED
    else
      .FILE_OVERWRITTEN
  { device_io_reply := DeviceIoResponse.new req.device_io_request io_status.to_u32
    file_id
    information }

/-- `DeviceCreateResponse::encode`. -/
def DeviceCreateResponse.encode (r : DeviceCreateResponse) : List Nat :=
  r.device_io_reply.encode ++ u32le r.file_id ++ [r.information.bits % 256]

/-- rdpdr.rs `DeviceCloseRequest` (DR_CLOSE_REQ). -/
structure DeviceCloseRequest where
  device_io_request : DeviceIoRequest
deriving DecidableEq, Repr

/-- rdpdr.rs `DeviceCloseResponse` (DR_CLOSE_RSP). -/
structure DeviceCloseResponse where
  device_io_response : DeviceIoResponse
  padding : Nat
deriving DecidableEq, Repr

/-- `DeviceCloseResponse::new`. -/
def DeviceCloseResponse.new (req : DeviceCloseRequest) (io_status : NTSTATUS) :
    DeviceCloseResponse :=
  { device_io_response := DeviceIoResponse.new req.device_io_request io_status.to_u32
    padding := 0 }

/-- rdpdr.rs `DeviceReadRequest` (DR_READ_REQ). -/
structure DeviceReadRequest where
  device_io_request : DeviceIoRequest
  length : Nat
  offset : Nat
deriving DecidableEq, Repr

/-- rdpdr.rs `DeviceReadResponse` (DR_READ_RSP). -/
structure DeviceReadResponse where
  device_io_reply : DeviceIoResponse
  length : Nat
  read_data : List Nat
deriving DecidableEq, Repr

/-- `DeviceReadResponse::new`. -/
def DeviceReadResponse.new (req : DeviceReadRequest) (io_status : NTSTATUS)
    (read_data : List Nat) : DeviceReadResponse :=
  { device_io_reply := DeviceIoResponse.new req.device_io_request io_status.to_u32
    length := read_data.length
    read_data }

/-- rdpdr.rs `DeviceWriteRequest` (DR_WRITE_REQ). -/
structure DeviceWriteRequest where
  device_io_request : DeviceIoRequest
  length : Nat
  offset : Nat
  write_data : List Nat
deriving DecidableEq, Repr

/-- rdpdr.rs `DeviceWriteResponse` (DR_WRITE_RSP). -/
structure DeviceWriteResponse where
  device_io_reply : DeviceIoResponse
  length : Nat
deriving DecidableEq, Repr

/-- `DeviceWriteResponse::new`. -/
def DeviceWriteResponse.new (req : DeviceIoRequest) (io_status : NTSTATUS)
    (length : Nat) : DeviceWriteResponse :=
  { device_io_reply := DeviceIoResponse.new req io_status.to_u32, length }

/-! ### File information classes (rdpdr.rs, MS-FSCC section 2.4) -/

/-- FILE_ATTRIBUTE_DIRECTORY (0x10) or FILE_ATTRIBUTE_NORMAL (0x80),
assigned from the file type as in the `FileInformationClass` builders. -/
def file_attributes_for (t : FileType) : Nat :=
  if t = FileType.Directory then 0x10 else 0x80

/-- rdpdr.rs `FileBothDirectoryInformation`. -/
structure FileBothDirectoryInformation where
  next_entry_offset : Nat
  file_index : Nat
  creation_time : Int
  last_access_time : Int
  last_write_time : Int
  change_time : Int
  end_of_file : Int
  allocation_size : Int
  file_attributes : Nat
  file_name_length : Nat
  ea_size : Nat
  short_name_length : Int
  short_name : List Nat
  file_name : String
deriving DecidableEq, Repr

/-- `FileBothDirectoryInformation::new` (base size 93). -/
def FileBothDirectoryInformation.new (creation_time last_access_time last_write_time
    change_time file_size : Int) (file_attributes : Nat) (file_name : String) :
    FileBothDirectoryInformation :=
  { next_entry_offset := 0
    file_index := 0
    creation_time
    last_access_time
    last_write_time
    change_time
    end_of_file := file_size
    allocation_size := file_size
    file_attributes
    file_name_length := unicode_size file_name false
    ea_size := 0
    short_name_length := 0
    short_name := List.replicate 24 0
    file_name }

/-- `FileBothDirectoryInformation::from`: converts a TDP file system object,
setting all four timestamps to the converted Windows time. -/
def FileBothDirectoryInformation.from (fso : FileSystemObject) :
    Except String FileBothDirectoryInformation := do
  let sz ← i64_try_from_u64 fso.size
  let last_modified := to_windows_time fso.last_modified
  .ok (FileBothDirectoryInformation.new last_modified last_modified last_modified
    last_modified sz (file_attributes_for fso.file_type) fso.name)

/-- `FileBothDirectoryInformation::encode` (the reserved byte is omitted, as
in the source). -/
def FileBothDirectoryInformation.encode (f : FileBothDirectoryInformation) : List Nat :=
  u32le f.next_entry_offset ++ u32le f.file_index ++ i64le f.creation_time ++
    i64le f.last_access_time ++ i64le f.last_write_time ++ i64le f.change_time ++
    i64le f.end_of_file ++ i64le f.allocation_size ++ u32le f.file_attributes ++
    u32le f.file_name_length ++ u32le f.ea_size ++ [(f.short_name_length % 2 ^ 8).toNat] ++
    f.short_name ++ to_unicode f.file_name false

/-- `FileBothDirectoryInformation::size` = BASE_SIZE (93) + name length. -/
def FileBothDirectoryInformation.size (f : FileBothDirectoryInformation) : Nat :=
  93 + f.file_name_length

/-- rdpdr.rs `FileFullDirectoryInformation`. -/
structure FileFullDirectoryInformation where
  next_entry_offset : Nat
  file_index : Nat
  creation_time : Int
  last_access_time : Int
  last_write_time : Int
  change_time : Int
  end_of_file : Int
  allocation_size : Int
  file_attributes : Nat
  file_name_length : Nat
  ea_size : Nat
  file_name : String
deriving DecidableEq, Repr

/-- `FileFullDirectoryInformation::new` (base size 68). -/
def FileFullDirectoryInformation.new (creation_time last_access_time last_write_time
    change_time file_size : Int) (file_attributes : Nat) (file_name : String) :
    FileFullDirectoryInformation :=
  { next_entry_offset := 0
    file_index := 0
    creation_time
    last_access_time
    last_write_time
    change_time
    end_of_file := file_size
    allocation_size := file_size
    file_attributes
    file_name_length := unicode_size file_name false
    ea_size := 0
    file_name }

/-- `FileFullDirectoryInformation::from`. -/
def FileFullDirectoryInformation.from (fso : FileSystemObject) :
    Except String FileFullDirectoryInformation := do
  let sz ← i64_try_from_u64 fso.size
  let last_modified := to_windows_time fso.last_modified
  .ok (FileFullDirectoryInformation.new last_modified last_modified last_modified
    last_modified sz (file_attributes_for fso.file_type) fso.name)

/-- `FileFullDirectoryInformation::encode`. -/
def FileFullDirectoryInformation.encode (f : FileFullDirectoryInformation) : List Nat :=
  u32le f.next_entry_offset ++ u32le f.file_index ++ i64le f.creation_time ++
    i64le f.last_access_time ++ i64le f.last_write_time ++ i64le f.change_time ++
    i64le f.end_of_file ++ i64le f.allocation_size ++ u32le f.file_attributes ++
    u32le f.file_name_length ++ u32le f.ea_size ++ to_unicode f.file_name false

/-- `FileFullDirectoryInformation::size` = BASE_SIZE (68) + name length. -/
def FileFullDirectoryInformation.size (f : FileFullDirectoryInformation) : Nat :=
  68 + f.file_name_length

/-- rdpdr.rs `FileNamesInformation`. -/
structure FileNamesInformation where
  next_entry_offset : Nat
  file_index : Nat
  file_name_length : Nat
  file_name : String
deriving DecidableEq, Repr

/-- `FileNamesInformation::new` (base size 12). -/
def FileNamesInformation.new (file_name : String) : FileNamesInformation :=
  { next_entry_offset := 0
    file_index := 0
    file_name_length := unicode_size file_name false
    file_name }

/-- `FileNamesInformation::encode`. -/
def FileNamesInformation.encode (f : FileNamesInformation) : List Nat :=
  u32le f.next_entry_offset ++ u32le f.file_index ++ u32le f.file_name_length ++
    to_unicode f.file_name false

/-- `FileNamesInformation::size` = BASE_SIZE (12) + name length. -/
def FileNamesInformation.size (f : FileNamesInformation) : Nat :=
  12 + f.file_name_length

/-- rdpdr.rs `FileDirectoryInformation`. -/
structure FileDirectoryInformation where
  next_entry_offset : Nat
  file_index : Nat
  creation_time : Int
  last_access_time : Int
  last_write_time : Int
  change_time : Int
  end_of_file : Int
  allocation_size : Int
  file_attributes : Nat
  file_name_length : Nat
  file_name : String
deriving DecidableEq, Repr

/-- `FileDirectoryInformation::new` (base size 64). -/
def FileDirectoryInformation.new (creation_time last_access_time last_write_time
    change_time file_size : Int) (file_attributes : Nat) (file_name : String) :
    FileDirectoryInformation :=
  { next_entry_offset := 0
    file_index := 0
    creation_time
    last_access_time
    last_write_time
    change_time
    end_of_file := file_size
    allocation_size := file_size
    file_attributes
    file_name_length := unicode_size file_name false
    file_name }

/-- `FileDirectoryInformation::from`. -/
def FileDirectoryInformation.from (fso : FileSystemObject) :
    Except String FileDirectoryInformation := do
  let sz ← i64_try_from_u64 fso.size
  let last_modified := to_windows_time fso.last_modified
  .ok (FileDirectoryInformation.new last_modified last_modified last_modified
    last_modified sz (file_attributes_for fso.file_type) fso.name)

/-- `FileDirectoryInformation::encode`. -/
def FileDirectoryInformation.encode (f : FileDirectoryInformation) : List Nat :=
  u32le f.next_entry_offset ++ u32le f.file_index ++ i64le f.creation_time ++
    i64le f.last_access_time ++ i64le f.last_write_time ++ i64le f.change_time ++
    i64le f.end_of_file ++ i64le f.allocation_size ++ u32le f.file_attributes ++
    u32le f.file_name_length ++ to_unicode f.file_name false

/-- `FileDirectoryInformation::size` = BASE_SIZE (64) + name length. -/
def FileDirectoryInformation.size (f : FileDirectoryInformation) : Nat :=
  64 + f.file_name_length

/-- rdpdr.rs `FileRenameInformation` (set-information payload). -/
structure FileRenameInformation where
  replace_if_exists : Bool
  file_name : WindowsPath
deriving DecidableEq, Repr

/-- `FileRenameInformation::size` = BASE_SIZE (6) + path length (in
characters, as `WindowsPath::len` counts). -/
def FileRenameInformation.size (f : FileRenameInformation) : Nat :=
  6 + f.file_name.path.length

/-- rdpdr.rs `FileDispositionInformation` (set-information payload). -/
structure FileDispositionInformation where
  delete_pending : Nat
deriving DecidableEq, Repr

/-- rdpdr.rs `FileBasicInformation` (set-information payload). -/
structure FileBasicInformation where
  creation_time : Int
  last_access_time : Int
  last_write_time : Int
  change_time : Int
  file_attributes : Nat
deriving DecidableEq, Repr

/-- rdpdr.rs `FileEndOfFileInformation` (set-information payload). -/
structure FileEndOfFileInformation where
  end_of_file : Int
deriving DecidableEq, Repr

/-- rdpdr.rs `FileAllocationInformation` (set-information payload). -/
structure FileAllocationInformation where
  allocation_size : Int
deriving DecidableEq, Repr

/-- rdpdr.rs `FileInformationClass`, restricted to the variants the embedded
operations construct or receive. -/
inductive FileInformationClass
  | fileBothDirectoryInformation (f : FileBothDirectoryInformation)
  | fileFullDirectoryInformation (f : FileFullDirectoryInformation)
  | fileNamesInformation (f : FileNamesInformation)
  | fileDirectoryInformation (f : FileDirectoryInformation)
  | fileRenameInformation (f : FileRenameInformation)
  | fileDispositionInformation (f : FileDispositionInformation)
  | fileBasicInformation (f : FileBasicInformation)
  | fileEndOfFileInformation (f : FileEndOfFileInformation)
  | fileAllocationInformation (f : FileAllocationInformation)
deriving DecidableEq, Repr

/-- `FileInformationClass::size`. -/
def FileInformationClass.size : FileInformationClass → Nat
  | .fileBothDirectoryInformation f => f.size
  | .fileFullDirectoryInformation f => f.size
  | .fileNamesInformation f => f.size
  | .fileDirectoryInformation f => f.size
  | .fileRenameInformation f => f.size
  | .fileDispositionInformation _ => 1
  | .fileBasicInformation _ => 36
  | .fileEndOfFileInformation _ => 8
  | .fileAllocationInformation _ => 8

/-- `FileInformationClass::encode` for the directory-listing variants (the
only ones this client sends inside a query-directory response). -/
def FileInformationClass.encode : FileInformationClass → List Nat
  | .fileBothDirectoryInformation f => f.encode
  | .fileFullDirectoryInformation f => f.encode
  | .fileNamesInformation f => f.encode
  | .fileDirectoryInformation f => f.encode
  | .fileRenameInformation f =>
      [if f.replace_if_exists then 1 else 0, 0] ++ u32le f.file_name.path.length ++
        to_unicode f.file_name.path false
  | .fileDispositionInformation f => [f.delete_pending % 256]
  | .fileBasicInformation f =>
      i64le f.creation_time ++ i64le f.last_access_time ++ i64le f.last_write_time ++
        i64le f.change_time ++ u32le f.file_attributes
  | .fileEndOfFileInformation f => i64le f.end_of_file
  | .fileAllocationInformation f => i64le f.allocation_size

/-! ### File system information classes (rdpdr.rs, MS-FSCC section 2.5) -/

/-- rdpdr.rs `FileFsVolumeInformation`. -/
structure FileFsVolumeInformation where
  volume_creation_time : Int
  volume_serial_number : Nat
  volume_label_length : Nat
  supports_objects : Bool
  volume_label : String
deriving DecidableEq, Repr

/-- `FileFsVolumeInformation::new`: label `"TELEPORT"`, serial
`u32::MAX & 0xffff`, null-terminated label length, no object support. -/
def FileFsVolumeInformation.new (volume_creation_time : Int) : FileFsVolumeInformation :=
  { volume_creation_time
    volume_serial_number := 0xffffffff &&& 0xffff
    volume_label_length := unicode_size "TELEPORT" true
    supports_objects := false
    volume_label := "TELEPORT" }

/-- `FileFsVolumeInformation::size` = BASE_SIZE (17) + label length. -/
def FileFsVolumeInformation.size (f : FileFsVolumeInformation) : Nat :=
  17 + f.volume_label_length

/-- `FileFsVolumeInformation::encode`. -/
def FileFsVolumeInformation.encode (f : FileFsVolumeInformation) : List Nat :=
  i64le f.volume_creation_time ++ u32le f.volume_serial_number ++
    u32le f.volume_label_length ++ [if f.supports_objects then 1 else 0] ++
    to_unicode f.volume_label true

/-- rdpdr.rs `FileFsSizeInformation`. -/
structure FileFsSizeInformation where
  total_alloc_units : Int
  available_alloc_units : Int
  sectors_per_alloc_unit : Nat
  bytes_per_sector : Nat
deriving DecidableEq, Repr

/-- `FileFsSizeInformation::new` (FreeRDP fallback values). -/
def FileFsSizeInformation.new : FileFsSizeInformation :=
  { total_alloc_units := 0xffffffff
    available_alloc_units := 0xffffffff
    sectors_per_alloc_unit := 0xffffffff
    bytes_per_sector := 1 }

/-- `FileFsSizeInformation::size` = 24. -/
def FileFsSizeInformation.size (_ : FileFsSizeInformation) : Nat := 24

/-- `FileFsSizeInformation::encode`. -/
def FileFsSizeInformation.encode (f : FileFsSizeInformation) : List Nat :=
  i64le f.total_alloc_units ++ i64le f.available_alloc_units ++
    u32le f.sectors_per_alloc_unit ++ u32le f.bytes_per_sector

/-- rdpdr.rs `FileFsAttributeInformation`. -/
structure FileFsAttributeInformation where
  file_system_attributes : Nat
  max_component_name_len : Nat
  file_system_name_len : Nat
  file_system_name : String
deriving DecidableEq, Repr

/-- `FileFsAttributeInformation::new`: CASE_SENSITIVE_SEARCH (0x1) |
CASE_PRESERVED_NAMES (0x2) | UNICODE_ON_DISK (0x4), max component 260,
name `"FAT32"` null-terminated. -/
def FileFsAttributeInformation.new : FileFsAttributeInformation :=
  { file_system_attributes := 0x1 + 0x2 + 0x4
    max_component_name_len := 260
    file_system_name_len := unicode_size "FAT32" true
    file_system_name := "FAT32" }

/-- `FileFsAttributeInformation::size` = BASE_SIZE (12) + name length. -/
def FileFsAttributeInformation.size (f : FileFsAttributeInformation) : Nat :=
  12 + f.file_system_name_len

/-- `FileFsAttributeInformation::encode`. -/
def FileFsAttributeInformation.encode (f : FileFsAttributeInformation) : List Nat :=
  u32le f.file_system_attributes ++ u32le f.max_component_name_len ++
    u32le f.file_system_name_len ++ to_unicode f.file_system_name true

/-- rdpdr.rs `FileFsFullSizeInformation`. -/
structure FileFsFullSizeInformation where
  total_alloc_units : Int
  caller_available_alloc_units : Int
  actual_available_alloc_units : Int
  sectors_per_alloc_unit : Nat
  bytes_per_sector : Nat
deriving DecidableEq, Repr

/-- `FileFsFullSizeInformation::new` (FreeRDP fallback values). -/
def FileFsFullSizeInformation.new : FileFsFullSizeInformation :=
  { total_alloc_units := 0xffffffff
    caller_available_alloc_units := 0xffffffff
    actual_available_alloc_units := 0xffffffff
    sectors_per_alloc_unit := 0xffffffff
    bytes_per_sector := 1 }

/-- `FileFsFullSizeInformation::size` = 32. -/
def FileFsFullSizeInformation.size (_ : FileFsFullSizeInformation) : Nat := 32

/-- `FileFsFullSizeInformation::encode`. -/
def FileFsFullSizeInformation.encode (f : FileFsFullSizeInformation) : List Nat :=
  i64le f.total_alloc_units ++ i64le f.caller_available_alloc_units ++
    i64le f.actual_available_alloc_units ++ u32le f.sectors_per_alloc_unit ++
    u32le f.bytes_per_sector

/-- rdpdr.rs `FileFsDeviceInformation`. -/
structure FileFsDeviceInformation where
  device_type : Nat
  characteristics : Nat
deriving DecidableEq, Repr

/-- `FileFsDeviceInformation::new`: FILE_DEVICE_DISK (0x7), no
characteristics. -/
def FileFsDeviceInformation.new : FileFsDeviceInformation :=
  { device_type := 0x7, characteristics := 0 }

/-- `FileFsDeviceInformation::size` = 8. -/
def FileFsDeviceInformation.size (_ : FileFsDeviceInformation) : Nat := 8

/-- `FileFsDeviceInformation::encode`. -/
def FileFsDeviceInformation.encode (f : FileFsDeviceInformation) : List Nat :=
  u32le f.device_type ++ u32le f.characteristics

/-- rdpdr.rs `FileSystemInformationClass`. -/
inductive FileSystemInformationClass
  | fileFsVolumeInformation (f : FileFsVolumeInformation)
  | fileFsSizeInformation (f : FileFsSizeInformation)
  | fileFsAttributeInformation (f : FileFsAttributeInformation)
  | fileFsFullSizeInformation (f : FileFsFullSizeInformation)
  | fileFsDeviceInformation (f : FileFsDeviceInformation)
deriving DecidableEq, Repr

/-- `FileSystemInformationClass` size dispatch (used for the response length
field). -/
def FileSystemInformationClass.size : FileSystemInformationClass → Nat
  | .fileFsVolumeInformation f => f.size
  | .fileFsSizeInformation f => f.size
  | .fileFsAttributeInformation f => f.size
  | .fileFsFullSizeInformation f => f.size
  | .fileFsDeviceInformation f => f.size

/-- `FileSystemInformationClass::encode`. -/
def FileSystemInformationClass.encode : FileSystemInformationClass → List Nat
  | .fileFsVolumeInformation f => f.encode
  | .fileFsSizeInformation f => f.encode
  | .fileFsAttributeInformation f => f.encode
  | .fileFsFullSizeInformation f => f.encode
  | .fileFsDeviceInformation f => f.encode

/-! ### Drive query / set requests and responses (rdpdr.rs) -/

/-- rdpdr.rs `ServerDriveQueryDirectoryRequest`
(DR_DRIVE_QUERY_DIRECTORY_REQ). -/
structure ServerDriveQueryDirectoryRequest where
  device_io_request : DeviceIoRequest
  file_info_class_lvl : FileInformationClassLevel
  initial_query : Nat
  path_length : Nat
  path : WindowsPath
deriving DecidableEq, Repr

/-- rdpdr.rs `ClientDriveQueryDirectoryResponse`
(DR_DRIVE_QUERY_DIRECTORY_RSP). -/
structure ClientDriveQueryDirectoryResponse where
  device_io_reply : DeviceIoResponse
  length : Nat
  buffer : Option FileInformationClass
deriving DecidableEq, Repr

/-- `ClientDriveQueryDirectoryResponse::new`: validates the status / buffer
combination (SUCCESS requires a buffer; NOT_SUPPORTED, NO_MORE_FILES and
UNSUCCESSFUL require none; other statuses are rejected), and computes the
length from the buffer for the four directory-information variants. -/
def ClientDriveQueryDirectoryResponse.new (device_io_request : DeviceIoRequest)
    (io_status : NTSTATUS) (buffer : Option FileInformationClass) :
    Except String ClientDriveQueryDirectoryResponse := do
  match io_status with
  | .STATUS_SUCCESS =>
      if buffer.isNone then
        .error "a ClientDriveQueryDirectoryResponse with STATUS_SUCCESS should have a buffer"
      else .ok ()
  | .STATUS_NOT_SUPPORTED =>
      if buffer.isSome then
        .error "a ClientDriveQueryDirectoryResponse with this NTSTATUS should have no buffer"
      else .ok ()
  | .STATUS_NO_MORE_FILES =>
      if buffer.isSome then
        .error "a ClientDriveQueryDirectoryResponse with this NTSTATUS should have no buffer"
      else .ok ()
  | .STATUS_UNSUCCESSFUL =>
      if buffer.isSome then
        .error "a ClientDriveQueryDirectoryResponse with this NTSTATUS should have no buffer"
      else .ok ()
  | _ => .error "received unsupported io_status for ClientDriveQueryDirectoryResponse"
  let length ←
    match buffer with
    | some (.fileBothDirectoryInformation f) => .ok f.size
    | some (.fileFullDirectoryInformation f) => .ok f.size
    | some (.fileNamesInformation f) => .ok f.size
    | some (.fileDirectoryInformation f) => .ok f.size
    | some _ => .error "ClientDriveQueryDirectoryResponse not implemented for this class"
    | none => .ok 0
  .ok { device_io_reply := DeviceIoResponse.new device_io_request io_status.to_u32
        length
        buffer }

/-- `ClientDriveQueryDirectoryResponse::encode`: the device-io reply, the
length, the optional buffer, and a single padding byte exactly when the
status is STATUS_NO_MORE_FILES. -/
def ClientDriveQueryDirectoryResponse.encode (r : ClientDriveQueryDirectoryResponse) :
    List Nat :=
  r.device_io_reply.encode ++ u32le r.length ++
    (match r.buffer with | some b => b.encode | none => []) ++
    (if r.device_io_reply.io_status = NTSTATUS.to_u32 .STATUS_NO_MORE_FILES then [0] else [])

/-- rdpdr.rs `ServerDriveQueryVolumeInformationRequest`. -/
structure ServerDriveQueryVolumeInformationRequest where
  device_io_request : DeviceIoRequest
  fs_info_class_lvl : FileSystemInformationClassLevel
deriving DecidableEq, Repr

/-- The five levels `ServerDriveQueryVolumeInformationRequest::decode`
accepts (its `VALID_LEVELS`). -/
def QVI_VALID_LEVELS : List FileSystemInformationClassLevel :=
  [.FileFsVolumeInformation, .FileFsSizeInformation, .FileFsAttributeInformation,
   .FileFsFullSizeInformation, .FileFsDeviceInformation]

/-- `ServerDriveQueryVolumeInformationRequest::decode`: reads the class
level and rejects — with a hard (invalid-data) error — any level that is not
one of the five supported ones. -/
def ServerDriveQueryVolumeInformationRequest.decode (device_io_request : DeviceIoRequest)
    (payload : Cursor) :
    Except String (ServerDriveQueryVolumeInformationRequest × Cursor) := do
  let (v, payload) ← payload.read_u32
  match FileSystemInformationClassLevel.from_u32 v with
  | none => .error "failed to read FileSystemInformationClassLevel"
  | some fs_info_class_lvl =>
      if fs_info_class_lvl ∈ QVI_VALID_LEVELS then
        .ok (⟨device_io_request, fs_info_class_lvl⟩, payload)
      else
        .error "read invalid FileSystemInformationClassLevel"

/-- rdpdr.rs `ClientDriveQueryVolumeInformationResponse`. -/
structure ClientDriveQueryVolumeInformationResponse where
  device_io_reply : DeviceIoResponse
  length : Nat
  buffer : Option FileSystemInformationClass
deriving DecidableEq, Repr

/-- `ClientDriveQueryVolumeInformationResponse::new`: SUCCESS requires a
buffer, UNSUCCESSFUL requires none, other statuses are rejected. -/
def ClientDriveQueryVolumeInformationResponse.new (device_io_request : DeviceIoRequest)
    (io_status : NTSTATUS) (buffer : Option FileSystemInformationClass) :
    Except String ClientDriveQueryVolumeInformationResponse := do
  match io_status with
  | .STATUS_SUCCESS =>
      if buffer.isNone then
        .error "a ClientDriveQueryVolumeInformationResponse with STATUS_SUCCESS should have a buffer"
      else .ok ()
  | .STATUS_UNSUCCESSFUL =>
      if buffer.isSome then
        .error "a ClientDriveQueryVolumeInformationResponse with STATUS_UNSUCCESSFUL should have no buffer"
      else .ok ()
  | _ => .error "received unsupported io_status for ClientDriveQueryVolumeInformationResponse"
  .ok { device_io_reply := DeviceIoResponse.new device_io_request io_status.to_u32
        length := match buffer with | some b => b.size | none => 0
        buffer }

/-- `ClientDriveQueryVolumeInformationResponse::encode`. -/
def ClientDriveQueryVolumeInformationResponse.encode
    (r : ClientDriveQueryVolumeInformationResponse) : List Nat :=
  r.device_io_reply.encode ++ u32le r.length ++
    (match r.buffer with | some b => b.encode | none => [])

/-- rdpdr.rs `ServerDriveSetInformationRequest`
(DR_DRIVE_SET_INFORMATION_REQ). -/
structure ServerDriveSetInformationRequest where
  device_io_request : DeviceIoRequest
  file_information_class_level : FileInformationClassLevel
  set_buffer : FileInformationClass
deriving DecidableEq, Repr

/-- rdpdr.rs `ClientDriveSetInformationResponse`
(DR_DRIVE_SET_INFORMATION_RSP). -/
structure ClientDriveSetInformationResponse where
  device_io_reply : DeviceIoResponse
  length : Nat
deriving DecidableEq, Repr

/-- `ClientDriveSetInformationResponse::new`: the length echoes the size of
the request's set buffer. -/
def ClientDriveSetInformationResponse.new (req : ServerDriveSetInformationRequest)
    (io_status : NTSTATUS) : ClientDriveSetInformationResponse :=
  { device_io_reply := DeviceIoResponse.new req.device_io_request io_status.to_u32
    length := req.set_buffer.size }

/-! ### TDP bridge records (lib.rs) -/

/-- lib.rs `SharedDirectoryInfoRequest`. -/
structure SharedDirectoryInfoRequest where
  completion_id : Nat
  directory_id : Nat
  path : UnixPath
deriving DecidableEq, Repr

/-- lib.rs `SharedDirectoryInfoResponse`. -/
structure SharedDirectoryInfoResponse where
  completion_id : Nat
  err_code : TdpErrCode
  fso : FileSystemObject
deriving DecidableEq, Repr

/-- lib.rs `SharedDirectoryCreateRequest`. -/
structure SharedDirectoryCreateRequest where
  completion_id : Nat
  directory_id : Nat
  file_type : FileType
  path : UnixPath
deriving DecidableEq, Repr

/-- lib.rs `SharedDirectoryCreateResponse`. -/
structure SharedDirectoryCreateResponse where
  completion_id : Nat
  err_code : TdpErrCode
  fso : FileSystemObject
deriving DecidableEq, Repr

/-- lib.rs `SharedDirectoryDeleteRequest`. -/
structure SharedDirectoryDeleteRequest where
  completion_id : Nat
  directory_id : Nat
  path : UnixPath
deriving DecidableEq, Repr

/-- lib.rs `SharedDirectoryDeleteResponse`. -/
structure SharedDirectoryDeleteResponse where
  completion_id : Nat
  err_code : TdpErrCode
deriving DecidableEq, Repr

/-- lib.rs `SharedDirectoryListRequest`. -/
structure SharedDirectoryListRequest where
  completion_id : Nat
  directory_id : Nat
  path : UnixPath
deriving DecidableEq, Repr

/-- lib.rs `SharedDirectoryListResponse`. -/
structure SharedDirectoryListResponse where
  completion_id : Nat
  err_code : TdpErrCode
  fso_list : List FileSystemObject
deriving DecidableEq, Repr

/-- lib.rs `SharedDirectoryReadRequest`. -/
structure SharedDirectoryReadRequest where
  completion_id : Nat
  directory_id : Nat
  path : UnixPath
  length : Nat
  offset : Nat
deriving DecidableEq, Repr

/-- lib.rs `SharedDirectoryReadResponse`. -/
structure SharedDirectoryReadResponse where
  completion_id : Nat
  err_code : TdpErrCode
  read_data : List Nat
deriving DecidableEq, Repr

/-- lib.rs `SharedDirectoryWriteRequest`. -/
structure SharedDirectoryWriteRequest where
  completion_id : Nat
  directory_id : Nat
  path : UnixPath
  offset : Nat
  write_data : List Nat
deriving DecidableEq, Repr

/-- lib.rs `SharedDirectoryWriteResponse`. -/
structure SharedDirectoryWriteResponse where
  completion_id : Nat
  err_code : TdpErrCode
  bytes_written : Nat
deriving DecidableEq, Repr

/-- lib.rs `SharedDirectoryMoveRequest`. -/
structure SharedDirectoryMoveRequest where
  completion_id : Nat
  directory_id : Nat
  original_path : UnixPath
  new_path : UnixPath
deriving DecidableEq, Repr

/-- lib.rs `SharedDirectoryMoveResponse`. -/
structure SharedDirectoryMoveResponse where
  completion_id : Nat
  err_code : TdpErrCode
deriving DecidableEq, Repr

/-- An outbound TDP request, as handed to the injected sender callbacks of
dir.rs `Client`. -/
inductive TdpRequest
  | info (r : SharedDirectoryInfoRequest)
  | create (r : SharedDirectoryCreateRequest)
  | delete (r : SharedDirectoryDeleteRequest)
  | list (r : SharedDirectoryListRequest)
  | read (r : SharedDirectoryReadRequest)
  | write (r : SharedDirectoryWriteRequest)
  | move (r : SharedDirectoryMoveRequest)
deriving DecidableEq, Repr

/-! ### The file cache and its iterator (dir.rs) -/

/-- dir.rs `FileCacheObject`: the per-open-handle state of the drive
client. -/
structure FileCacheObject where
  path : UnixPath
  delete_pending : Bool
  fso : FileSystemObject
  contents : List FileSystemObject
  contents_i : Nat
  dot_sent : Bool
  dotdot_sent : Bool
deriving DecidableEq, Repr

/-- `FileCacheObject::new`. -/
def FileCacheObject.new (path : UnixPath) (fso : FileSystemObject) : FileCacheObject :=
  { path
    delete_pending := false
    fso
    contents := []
    contents_i := 0
    dot_sent := false
    dotdot_sent := false }

/-- The `Iterator::next` implementation for `FileCacheObject`: yields a
synthetic `"."` entry (the directory's own type, size and last-modified),
then a synthetic `".."` entry (type Directory, size 0), then the stored
contents in order; afterwards `none`. -/
def FileCacheObject.next (f : FileCacheObject) : Option FileSystemObject × FileCacheObject :=
  if ¬ f.dot_sent then
    (some { last_modified := f.fso.last_modified
            size := f.fso.size
            file_type := f.fso.file_type
            is_empty := TDP_FALSE
            path := ⟨"."⟩ },
     { f with dot_sent := true })
  else if ¬ f.dotdot_sent then
    (some { last_modified := f.fso.last_modified
            size := 0
            file_type := .Directory
            is_empty := TDP_FALSE
            path := ⟨".."⟩ },
     { f with dotdot_sent := true })
  else
    if h : f.contents_i < f.contents.length then
      (some (f.contents.get ⟨f.contents_i, h⟩), { f with contents_i := f.contents_i + 1 })
    else
      (none, f)

/-! ### The directory (drive) client (dir.rs `Client`)

The source stores boxed `FnOnce` closures in its seven
`pending_sd_*_resp_handlers` maps.  Each closure is one of a small, fixed
set of shapes; the embedding stores the closure's captured data as an
enum-tagged pending operation and runs it with a `run_*_handler`
interpreter whose branches are the closure bodies.  Outbound TDP requests
(sent through the injected sender callbacks) are collected in
`tdp_outbox`. -/

/-- Association-list in-place update (the write-back of a `get_mut` borrow). -/
def alistUpdate {α : Type} (t : List (Nat × α)) (k : Nat) (v : α) : List (Nat × α) :=
  t.map (fun p => if p.1 = k then (k, v) else p)

/-- Pending info-response continuations: the closure of
`Client::process_irp_create` and the closure of
`Client::rename_dont_replace_if_exists`. -/
inductive SharedDirectoryInfoResponseHandler
  | processIrpCreate (rdp_req : DeviceCreateRequest)
  | renameDontReplaceIfExists (rdp_req : ServerDriveSetInformationRequest)
      (rename_info : FileRenameInformation) (io_status : NTSTATUS)
deriving DecidableEq, Repr

/-- Pending create-response continuation: the closure of
`Client::tdp_sd_create`. -/
inductive SharedDirectoryCreateResponseHandler
  | tdpSdCreate (rdp_req : DeviceCreateRequest)
deriving DecidableEq, Repr

/-- Pending delete-response continuations: the closures of
`Client::tdp_sd_overwrite` and `Client::tdp_sd_delete`. -/
inductive SharedDirectoryDeleteResponseHandler
  | tdpSdOverwrite (rdp_req : DeviceCreateRequest)
  | tdpSdDelete (rdp_req : DeviceCloseRequest)
deriving DecidableEq, Repr

/-- Pending list-response continuation: the closure of
`Client::process_irp_directory_control`. -/
inductive SharedDirectoryListResponseHandler
  | queryDirectory (rdp_req : ServerDriveQueryDirectoryRequest) (file_id : Nat)
deriving DecidableEq, Repr

/-- Pending read-response continuation: the closure of
`Client::tdp_sd_read`. -/
inductive SharedDirectoryReadResponseHandler
  | tdpSdRead (rdp_req : DeviceReadRequest)
deriving DecidableEq, Repr

/-- Pending write-response continuation: the closure of
`Client::tdp_sd_write`. -/
inductive SharedDirectoryWriteResponseHandler
  | tdpSdWrite (device_io_request : DeviceIoRequest)
deriving DecidableEq, Repr

/-- Pending move-response continuation: the closure of
`Client::tdp_sd_move`. -/
inductive SharedDirectoryMoveResponseHandler
  | tdpSdMove (rdp_req : ServerDriveSetInformationRequest) (io_status : NTSTATUS)
deriving DecidableEq, Repr

/-- A structured RDP reply produced by the directory client (the source
returns the `encode()`d bytes of one of these). -/
inductive RdpResponse
  | deviceCreate (r : DeviceCreateResponse)
  | deviceClose (r : DeviceCloseResponse)
  | deviceRead (r : DeviceReadResponse)
  | deviceWrite (r : DeviceWriteResponse)
  | clientDriveQueryDirectory (r : ClientDriveQueryDirectoryResponse)
  | clientDriveQueryVolumeInformation (r : ClientDriveQueryVolumeInformationResponse)
  | clientDriveSetInformation (r : ClientDriveSetInformationResponse)
deriving DecidableEq, Repr

/-- dir.rs `Client`: the directory-sharing client state. -/
structure DirClient where
  allow_directory_sharing : Bool
  file_cache : List (Nat × FileCacheObject)
  next_file_id : Nat
  tdp_outbox : List TdpRequest
  pending_sd_info_resp_handlers : List (Nat × SharedDirectoryInfoResponseHandler)
  pending_sd_create_resp_handlers : List (Nat × SharedDirectoryCreateResponseHandler)
  pending_sd_delete_resp_handlers : List (Nat × SharedDirectoryDeleteResponseHandler)
  pending_sd_list_resp_handlers : List (Nat × SharedDirectoryListResponseHandler)
  pending_sd_read_resp_handlers : List (Nat × SharedDirectoryReadResponseHandler)
  pending_sd_write_resp_handlers : List (Nat × SharedDirectoryWriteResponseHandler)
  pending_sd_move_resp_handlers : List (Nat × SharedDirectoryMoveResponseHandler)
deriving DecidableEq, Repr

/-- dir.rs `Client::new` (with directory sharing enabled). -/
def DirClient.new : DirClient :=
  { allow_directory_sharing := true
    file_cache := []
    next_file_id := 0
    tdp_outbox := []
    pending_sd_info_resp_handlers := []
    pending_sd_create_resp_handlers := []
    pending_sd_delete_resp_handlers := []
    pending_sd_list_resp_handlers := []
    pending_sd_read_resp_handlers := []
    pending_sd_write_resp_handlers := []
    pending_sd_move_resp_handlers := [] }

/-- `Client::generate_file_id`: a wrapping increment of `next_file_id`. -/
def generate_file_id (cli : DirClient) : Nat × DirClient :=
  let id := (cli.next_file_id + 1) % 2 ^ 32
  (id, { cli with next_file_id := id })

/-- `Client::tdp_sd_create`: sends a SharedDirectoryCreateRequest and
registers its response continuation under the request's completion id. -/
def tdp_sd_create (cli : DirClient) (rdp_req : DeviceCreateRequest) (file_type : FileType) :
    Except String (DirClient × List RdpResponse) :=
  .ok ({ cli with
          tdp_outbox := cli.tdp_outbox ++
            [.create { completion_id := rdp_req.device_io_request.completion_id
                       directory_id := rdp_req.device_io_request.device_id
                       file_type
                       path := UnixPath.fromWindows rdp_req.path }]
          pending_sd_create_resp_handlers :=
            alistInsert cli.pending_sd_create_resp_handlers
              rdp_req.device_io_request.completion_id (.tdpSdCreate rdp_req) },
        [])

/-- `Client::tdp_sd_overwrite`: sends a SharedDirectoryDeleteRequest and
registers the delete-then-create continuation. -/
def tdp_sd_overwrite (cli : DirClient) (rdp_req : DeviceCreateRequest) :
    Except String (DirClient × List RdpResponse) :=
  .ok ({ cli with
          tdp_outbox := cli.tdp_outbox ++
            [.delete { completion_id := rdp_req.device_io_request.completion_id
                       directory_id := rdp_req.device_io_request.device_id
                       path := UnixPath.fromWindows rdp_req.path }]
          pending_sd_delete_resp_handlers :=
            alistInsert cli.pending_sd_delete_resp_handlers
              rdp_req.device_io_request.completion_id (.tdpSdOverwrite rdp_req) },
        [])

/-- `Client::tdp_sd_move`: looks the file up in the cache, sends a
SharedDirectoryMoveRequest and registers its continuation; a cache miss
replies STATUS_UNSUCCESSFUL. -/
def tdp_sd_move (cli : DirClient) (rdp_req : ServerDriveSetInformationRequest)
    (rename_info : FileRenameInformation) (io_status : NTSTATUS) :
    Except String (DirClient × List RdpResponse) :=
  match alistLookup cli.file_cache rdp_req.device_io_request.file_id with
  | some file =>
      .ok ({ cli with
              tdp_outbox := cli.tdp_outbox ++
                [.move { completion_id := rdp_req.device_io_request.completion_id
                         directory_id := rdp_req.device_io_request.device_id
                         original_path := file.path
                         new_path := UnixPath.fromWindows rename_info.file_name }]
              pending_sd_move_resp_handlers :=
                alistInsert cli.pending_sd_move_resp_handlers
                  rdp_req.device_io_request.completion_id (.tdpSdMove rdp_req io_status) },
            [])
  | none =>
      .ok (cli,
        [.clientDriveSetInformation
          (ClientDriveSetInformationResponse.new rdp_req .STATUS_UNSUCCESSFUL)])

/-- The control-flow outcome of the CREATE info-response closure:
reply immediately with a status, open the existing file under a fresh file
id, issue a TDP create (regular file or directory), overwrite
(delete-then-create), or fail the session. -/
inductive CreateDecision
  | replyStatus (status : NTSTATUS)
  | openExisting
  | createFile
  | createDir
  | overwrite
  | hardError
deriving DecidableEq, Repr

/-- The common `match rdp_req.create_disposition` block at the end of the
CREATE info-response closure in `Client::process_irp_create`. -/
def disposition_dispatch (d : CreateDisposition) (e : TdpErrCode) : CreateDecision :=
  match d with
  | .FILE_SUPERSEDE =>
      if e = .Nil then .overwrite
      else if e = .DoesNotExist then .createFile else .hardError
  | .FILE_OPEN =>
      if e = .Nil then .openExisting
      else if e = .DoesNotExist then .replyStatus .STATUS_NO_SUCH_FILE else .hardError
  | .FILE_CREATE =>
      if e = .Nil then .replyStatus .STATUS_OBJECT_NAME_COLLISION
      else if e = .DoesNotExist then .createFile else .hardError
  | .FILE_OPEN_IF =>
      if e = .Nil then .openExisting
      else if e = .DoesNotExist then .createFile else .hardError
  | .FILE_OVERWRITE =>
      if e = .Nil then .overwrite
      else if e = .DoesNotExist then .replyStatus .STATUS_NO_SUCH_FILE else .hardError
  | .FILE_OVERWRITE_IF =>
      if e = .Nil then .overwrite
      else if e = .DoesNotExist then .createFile else .hardError

/-- The decision logic of the CREATE info-response closure in
`Client::process_irp_create`: `e` is the probe's error code and `t` the
probed file's type (inspected only when the target exists).  The
`intersects(FILE_OPEN_IF | FILE_CREATE)` test on the existing-target checks
is modelled, per the specification, as membership in that two-element
set. -/
def create_decision (d : CreateDisposition) (e : TdpErrCode) (t : FileType)
    (o : CreateOptions) : CreateDecision :=
  match e with
  | .Failed => .hardError
  | .AlreadyExists => .hardError
  | .Nil =>
      if t = .Directory then
        if d = .FILE_CREATE then .replyStatus .STATUS_OBJECT_NAME_COLLISION
        else if o.file_non_directory_file then .replyStatus .STATUS_ACCESS_DENIED
        else disposition_dispatch d e
      else if o.file_directory_file then .replyStatus .STATUS_NOT_A_DIRECTORY
      else disposition_dispatch d e
  | .DoesNotExist =>
      if o.file_directory_file then
        if d = .FILE_OPEN_IF ∨ d = .FILE_CREATE then .createDir
        else .replyStatus .STATUS_NO_SUCH_FILE
      else disposition_dispatch d e

/-- The body of the CREATE info-response closure registered by
`Client::process_irp_create`, interpreting `create_decision`. -/
def process_create_info_response (cli : DirClient) (rdp_req : DeviceCreateRequest)
    (res : SharedDirectoryInfoResponse) : Except String (DirClient × List RdpResponse) :=
  match create_decision rdp_req.create_disposition res.err_code res.fso.file_type
      rdp_req.create_options with
  | .hardError =>
      .error "received unexpected TDP error code in SharedDirectoryInfoResponse"
  | .replyStatus status =>
      .ok (cli, [.deviceCreate (DeviceCreateResponse.new rdp_req status 0)])
  | .openExisting =>
      let r := generate_file_id cli
      let cli :=
        { r.2 with
            file_cache := alistInsert r.2.file_cache r.1
              (FileCacheObject.new (UnixPath.fromWindows rdp_req.path) res.fso) }
      .ok (cli, [.deviceCreate (DeviceCreateResponse.new rdp_req .STATUS_SUCCESS r.1)])
  | .createFile => tdp_sd_create cli rdp_req .File
  | .createDir => tdp_sd_create cli rdp_req .Directory
  | .overwrite => tdp_sd_overwrite cli rdp_req

/-- lib.rs `impl From<ServerCreateDriveRequest> for
SharedDirectoryInfoRequest`. -/
def SharedDirectoryInfoRequest.from (req : DeviceCreateRequest) : SharedDirectoryInfoRequest :=
  { completion_id := req.device_io_request.completion_id
    directory_id := req.device_io_request.device_id
    path := UnixPath.fromWindows req.path }

/-- dir.rs `Client::process_irp_create`: sends the TDP info probe and
registers the CREATE continuation; no RDP bytes are returned yet. -/
def process_irp_create (cli : DirClient) (rdp_req : DeviceCreateRequest) :
    Except String (DirClient × List RdpResponse) :=
  .ok ({ cli with
          tdp_outbox := cli.tdp_outbox ++ [.info (SharedDirectoryInfoRequest.from rdp_req)]
          pending_sd_info_resp_handlers :=
            alistInsert cli.pending_sd_info_resp_handlers
              rdp_req.device_io_request.completion_id (.processIrpCreate rdp_req) },
        [])

/-! ### Query-directory responses (dir.rs) -/

/-- The `match req.file_info_class_lvl` block of
`Client::prep_next_drive_query_dir_response`, building the response buffer
for one file system object. -/
def dirInfoBuffer (lvl : FileInformationClassLevel) (fso : FileSystemObject) :
    Except String FileInformationClass :=
  match lvl with
  | .FileBothDirectoryInformation =>
      (FileBothDirectoryInformation.from fso).map .fileBothDirectoryInformation
  | .FileFullDirectoryInformation =>
      (FileFullDirectoryInformation.from fso).map .fileFullDirectoryInformation
  | .FileNamesInformation =>
      .ok (.fileNamesInformation (FileNamesInformation.new fso.name))
  | .FileDirectoryInformation =>
      (FileDirectoryInformation.from fso).map .fileDirectoryInformation
  | _ => .error "received invalid FileInformationClassLevel in ServerDriveQueryDirectoryRequest"

/-- `Client::prep_drive_query_dir_response`. -/
def prep_drive_query_dir_response (device_io_request : DeviceIoRequest)
    (io_status : NTSTATUS) (buffer : Option FileInformationClass) :
    Except String RdpResponse :=
  (ClientDriveQueryDirectoryResponse.new device_io_request io_status buffer).map
    .clientDriveQueryDirectory

/-- `Client::prep_file_cache_fail_drive_query_dir_response`. -/
def prep_file_cache_fail_drive_query_dir_response (req : ServerDriveQueryDirectoryRequest) :
    Except String RdpResponse :=
  prep_drive_query_dir_response req.device_io_request .STATUS_UNSUCCESSFUL none

/-- dir.rs `Client::prep_next_drive_query_dir_response`: advances the cached
directory's iterator and wraps the yielded entry in a STATUS_SUCCESS
response, or replies STATUS_NO_MORE_FILES once the iterator is exhausted. -/
def prep_next_drive_query_dir_response (cli : DirClient)
    (req : ServerDriveQueryDirectoryRequest) :
    Except String (DirClient × List RdpResponse) :=
  match alistLookup cli.file_cache req.device_io_request.file_id with
  | some dir =>
      match dir.next with
      | (some fso, dir') => do
          let buffer ← dirInfoBuffer req.file_info_class_lvl fso
          let resp ← prep_drive_query_dir_response req.device_io_request .STATUS_SUCCESS
            (some buffer)
          .ok ({ cli with
                  file_cache := alistUpdate cli.file_cache req.device_io_request.file_id dir' },
               [resp])
      | (none, dir') => do
          let resp ← prep_drive_query_dir_response req.device_io_request .STATUS_NO_MORE_FILES
            none
          .ok ({ cli with
                  file_cache := alistUpdate cli.file_cache req.device_io_request.file_id dir' },
               [resp])
  | none => do
      let resp ← prep_file_cache_fail_drive_query_dir_response req
      .ok (cli, [resp])

/-- The IRP_MN_QUERY_DIRECTORY branch of
`Client::process_irp_directory_control`: non-initial queries are served from
the cache iterator; the initial query sends a SharedDirectoryListRequest and
registers its continuation. -/
def process_irp_query_directory (cli : DirClient)
    (rdp_req : ServerDriveQueryDirectoryRequest) :
    Except String (DirClient × List RdpResponse) :=
  let file_id := rdp_req.device_io_request.file_id
  match alistLookup cli.file_cache file_id with
  | some dir =>
      if dir.fso.file_type ≠ .Directory then
        .error "received an IRP_MN_QUERY_DIRECTORY request for a file rather than a directory"
      else if rdp_req.initial_query = 0 then
        prep_next_drive_query_dir_response cli rdp_req
      else
        .ok ({ cli with
                tdp_outbox := cli.tdp_outbox ++
                  [.list { completion_id := rdp_req.device_io_request.completion_id
                           directory_id := rdp_req.device_io_request.device_id
                           path := dir.path }]
                pending_sd_list_resp_handlers :=
                  alistInsert cli.pending_sd_list_resp_handlers
                    rdp_req.device_io_request.completion_id (.queryDirectory rdp_req file_id) },
              [])
  | none => do
      let resp ← prep_file_cache_fail_drive_query_dir_response rdp_req
      .ok (cli, [resp])

/-! ### Query-volume-information (dir.rs) -/

/-- dir.rs `Client::process_irp_query_volume_information` on the decoded
request: serves the five supported levels from the cached file object.  For
FileFsVolumeInformation the source passes `dir.fso.last_modified as i64`
directly (no `to_windows_time` conversion). -/
def process_irp_query_volume_information (cli : DirClient)
    (rdp_req : ServerDriveQueryVolumeInformationRequest) :
    Except String (DirClient × List RdpResponse) :=
  match alistLookup cli.file_cache rdp_req.device_io_request.file_id with
  | some dir =>
      let buffer : Option FileSystemInformationClass :=
        match rdp_req.fs_info_class_lvl with
        | .FileFsVolumeInformation =>
            some (.fileFsVolumeInformation
              (FileFsVolumeInformation.new (u64_as_i64 dir.fso.last_modified)))
        | .FileFsAttributeInformation =>
            some (.fileFsAttributeInformation FileFsAttributeInformation.new)
        | .FileFsFullSizeInformation =>
            some (.fileFsFullSizeInformation FileFsFullSizeInformation.new)
        | .FileFsDeviceInformation =>
            some (.fileFsDeviceInformation FileFsDeviceInformation.new)
        | .FileFsSizeInformation =>
            some (.fileFsSizeInformation FileFsSizeInformation.new)
        | _ => none
      let io_status : NTSTATUS :=
        if buffer.isSome then .STATUS_SUCCESS else .STATUS_UNSUCCESSFUL
      (ClientDriveQueryVolumeInformationResponse.new rdp_req.device_io_request io_status
        buffer).map (fun r => (cli, [.clientDriveQueryVolumeInformation r]))
  | none => .error "failed to retrieve an item from the file cache"

/-- The full IRP_MJ_QUERY_VOLUME_INFORMATION path: decode the request from
the payload, then process it. -/
def process_irp_query_volume_information_raw (cli : DirClient)
    (device_io_request : DeviceIoRequest) (payload : Cursor) :
    Except String (DirClient × List RdpResponse) := do
  let (rdp_req, _) ← ServerDriveQueryVolumeInformationRequest.decode device_io_request payload
  process_irp_query_volume_information cli rdp_req

/-! ### TDP response dispatch (dir.rs `handle_tdp_sd_*_response`) -/

/-- Interpreter for pending info-response continuations (the closure bodies
of `process_irp_create` and `rename_dont_replace_if_exists`). -/
def run_info_handler (h : SharedDirectoryInfoResponseHandler) (cli : DirClient)
    (res : SharedDirectoryInfoResponse) : Except String (DirClient × List RdpResponse) :=
  match h with
  | .processIrpCreate rdp_req => process_create_info_response cli rdp_req res
  | .renameDontReplaceIfExists rdp_req rename_info io_status =>
      if res.err_code = .DoesNotExist then
        tdp_sd_move cli rdp_req rename_info io_status
      else
        .ok (cli,
          [.clientDriveSetInformation
            (ClientDriveSetInformationResponse.new rdp_req .STATUS_OBJECT_NAME_COLLISION)])

/-- Interpreter for the pending create-response continuation (the closure
body of `tdp_sd_create`). -/
def run_create_handler (h : SharedDirectoryCreateResponseHandler) (cli : DirClient)
    (res : SharedDirectoryCreateResponse) : Except String (DirClient × List RdpResponse) :=
  match h with
  | .tdpSdCreate rdp_req =>
      if res.err_code ≠ .Nil then
        .ok (cli, [.deviceCreate (DeviceCreateResponse.new rdp_req .STATUS_UNSUCCESSFUL 0)])
      else
        let r := generate_file_id cli
        let cli :=
          { r.2 with
              file_cache := alistInsert r.2.file_cache r.1
                (FileCacheObject.new (UnixPath.fromWindows rdp_req.path) res.fso) }
        .ok (cli, [.deviceCreate (DeviceCreateResponse.new rdp_req .STATUS_SUCCESS r.1)])

/-- Interpreter for pending delete-response continuations (the closure
bodies of `tdp_sd_overwrite` and `tdp_sd_delete`). -/
def run_delete_handler (h : SharedDirectoryDeleteResponseHandler) (cli : DirClient)
    (res : SharedDirectoryDeleteResponse) : Except String (DirClient × List RdpResponse) :=
  match h with
  | .tdpSdOverwrite rdp_req =>
      match res.err_code with
      | .Nil => tdp_sd_create cli rdp_req .File
      | _ => .ok (cli, [.deviceCreate (DeviceCreateResponse.new rdp_req .STATUS_UNSUCCESSFUL 0)])
  | .tdpSdDelete rdp_req =>
      .ok (cli,
        [.deviceClose (DeviceCloseResponse.new rdp_req
          (if res.err_code = .Nil then .STATUS_SUCCESS else .STATUS_UNSUCCESSFUL))])

/-- Interpreter for the pending list-response continuation (the closure body
registered by `process_irp_directory_control`): a non-Nil error code fails
the session; otherwise the directory's contents are filled in and the first
("."-entry) response is produced. -/
def run_list_handler (h : SharedDirectoryListResponseHandler) (cli : DirClient)
    (res : SharedDirectoryListResponse) : Except String (DirClient × List RdpResponse) :=
  match h with
  | .queryDirectory rdp_req file_id =>
      if res.err_code ≠ .Nil then
        .error "SharedDirectoryListRequest failed"
      else
        match alistLookup cli.file_cache file_id with
        | some dir =>
            prep_next_drive_query_dir_response
              { cli with
                  file_cache := alistUpdate cli.file_cache file_id
                    { dir with contents := res.fso_list } }
              rdp_req
        | none => do
            let resp ← prep_file_cache_fail_drive_query_dir_response rdp_req
            .ok (cli, [resp])

/-- Interpreter for the pending read-response continuation (the closure body
of `tdp_sd_read`). -/
def run_read_handler (h : SharedDirectoryReadResponseHandler) (cli : DirClient)
    (res : SharedDirectoryReadResponse) : Except String (DirClient × List RdpResponse) :=
  match h with
  | .tdpSdRead rdp_req =>
      match res.err_code with
      | .Nil => .ok (cli, [.deviceRead (DeviceReadResponse.new rdp_req .STATUS_SUCCESS res.read_data)])
      | _ => .ok (cli, [.deviceRead (DeviceReadResponse.new rdp_req .STATUS_UNSUCCESSFUL [])])

/-- Interpreter for the pending write-response continuation (the closure
body of `tdp_sd_write`). -/
def run_write_handler (h : SharedDirectoryWriteResponseHandler) (cli : DirClient)
    (res : SharedDirectoryWriteResponse) : Except String (DirClient × List RdpResponse) :=
  match h with
  | .tdpSdWrite device_io_request =>
      match res.err_code with
      | .Nil =>
          .ok (cli, [.deviceWrite (DeviceWriteResponse.new device_io_request .STATUS_SUCCESS
            res.bytes_written)])
      | _ =>
          .ok (cli, [.deviceWrite (DeviceWriteResponse.new device_io_request .STATUS_UNSUCCESSFUL 0)])

/-- Interpreter for the pending move-response continuation (the closure body
of `tdp_sd_move`). -/
def run_move_handler (h : SharedDirectoryMoveResponseHandler) (cli : DirClient)
    (res : SharedDirectoryMoveResponse) : Except String (DirClient × List RdpResponse) :=
  match h with
  | .tdpSdMove rdp_req io_status =>
      if res.err_code ≠ .Nil then
        .ok (cli, [.clientDriveSetInformation
          (ClientDriveSetInformationResponse.new rdp_req .STATUS_UNSUCCESSFUL)])
      else
        .ok (cli, [.clientDriveSetInformation
          (ClientDriveSetInformationResponse.new rdp_req io_status)])

/-- dir.rs `Client::handle_tdp_sd_info_response`: removes the continuation
for the completion id and runs it; an unknown completion id is a hard
error. -/
def handle_tdp_sd_info_response (cli : DirClient) (res : SharedDirectoryInfoResponse) :
    Except String (DirClient × List RdpResponse) :=
  match alistLookup cli.pending_sd_info_resp_handlers res.completion_id with
  | some h =>
      run_info_handler h
        { cli with pending_sd_info_resp_handlers :=
            alistRemove cli.pending_sd_info_resp_handlers res.completion_id } res
  | none => .error "received invalid completion id"

/-- dir.rs `Client::handle_tdp_sd_create_response`. -/
def handle_tdp_sd_create_response (cli : DirClient) (res : SharedDirectoryCreateResponse) :
    Except String (DirClient × List RdpResponse) :=
  match alistLookup cli.pending_sd_create_resp_handlers res.completion_id with
  | some h =>
      run_create_handler h
        { cli with pending_sd_create_resp_handlers :=
            alistRemove cli.pending_sd_create_resp_handlers res.completion_id } res
  | none => .error "received invalid completion id"

/-- dir.rs `Client::handle_tdp_sd_delete_response`. -/
def handle_tdp_sd_delete_response (cli : DirClient) (res : SharedDirectoryDeleteResponse) :
    Except String (DirClient × List RdpResponse) :=
  match alistLookup cli.pending_sd_delete_resp_handlers res.completion_id with
  | some h =>
      run_delete_handler h
        { cli with pending_sd_delete_resp_handlers :=
            alistRemove cli.pending_sd_delete_resp_handlers res.completion_id } res
  | none => .error "received invalid completion id"

/-- dir.rs `Client::handle_tdp_sd_list_response`. -/
def handle_tdp_sd_list_response (cli : DirClient) (res : SharedDirectoryListResponse) :
    Except String (DirClient × List RdpResponse) :=
  match alistLookup cli.pending_sd_list_resp_handlers res.completion_id with
  | some h =>
      run_list_handler h
        { cli with pending_sd_list_resp_handlers :=
            alistRemove cli.pending_sd_list_resp_handlers res.completion_id } res
  | none => .error "received invalid completion id"

/-- dir.rs `Client::handle_tdp_sd_read_response`. -/
def handle_tdp_sd_read_response (cli : DirClient) (res : SharedDirectoryReadResponse) :
    Except String (DirClient × List RdpResponse) :=
  match alistLookup cli.pending_sd_read_resp_handlers res.completion_id with
  | some h =>
      run_read_handler h
        { cli with pending_sd_read_resp_handlers :=
            alistRemove cli.pending_sd_read_resp_handlers res.completion_id } res
  | none => .error "received invalid completion id"

/-- dir.rs `Client::handle_tdp_sd_write_response`. -/
def handle_tdp_sd_write_response (cli : DirClient) (res : SharedDirectoryWriteResponse) :
    Except String (DirClient × List RdpResponse) :=
  match alistLookup cli.pending_sd_write_resp_handlers res.completion_id with
  | some h =>
      run_write_handler h
        { cli with pending_sd_write_resp_handlers :=
            alistRemove cli.pending_sd_write_resp_handlers res.completion_id } res
  | none => .error "received invalid completion id"

/-- dir.rs `Client::handle_tdp_sd_move_response`. -/
def handle_tdp_sd_move_response (cli : DirClient) (res : SharedDirectoryMoveResponse) :
    Except String (DirClient × List RdpResponse) :=
  match alistLookup cli.pending_sd_move_resp_handlers res.completion_id with
  | some h =>
      run_move_handler h
        { cli with pending_sd_move_resp_handlers :=
            alistRemove cli.pending_sd_move_resp_handlers res.completion_id } res
  | none => .error "received invalid completion id"

/-- An inbound TDP response, tagged by kind as delivered by the embedding
host (lib.rs `handle_tdp_sd_*_response` entry points). -/
inductive TdpResponse
  | info (r : SharedDirectoryInfoResponse)
  | create (r : SharedDirectoryCreateResponse)
  | delete (r : SharedDirectoryDeleteResponse)
  | list (r : SharedDirectoryListResponse)
  | read (r : SharedDirectoryReadResponse)
  | write (r : SharedDirectoryWriteResponse)
  | move (r : SharedDirectoryMoveResponse)
deriving DecidableEq, Repr

/-- The seven TDP response kinds, one per continuation table. -/
inductive TdpKind
  | info | create | delete | list | read | write | move
deriving DecidableEq, Repr

/-- The kind of a TDP response. -/
def TdpResponse.kind : TdpResponse → TdpKind
  | .info _ => .info
  | .create _ => .create
  | .delete _ => .delete
  | .list _ => .list
  | .read _ => .read
  | .write _ => .write
  | .move _ => .move

/-- The completion id of a TDP response. -/
def TdpResponse.completion_id : TdpResponse → Nat
  | .info r => r.completion_id
  | .create r => r.completion_id
  | .delete r => r.completion_id
  | .list r => r.completion_id
  | .read r => r.completion_id
  | .write r => r.completion_id
  | .move r => r.completion_id

/-- Whether a continuation is registered for a kind and completion id. -/
def DirClient.registered (cli : DirClient) : TdpKind → Nat → Bool
  | .info, cid => (alistLookup cli.pending_sd_info_resp_handlers cid).isSome
  | .create, cid => (alistLookup cli.pending_sd_create_resp_handlers cid).isSome
  | .delete, cid => (alistLookup cli.pending_sd_delete_resp_handlers cid).isSome
  | .list, cid => (alistLookup cli.pending_sd_list_resp_handlers cid).isSome
  | .read, cid => (alistLookup cli.pending_sd_read_resp_handlers cid).isSome
  | .write, cid => (alistLookup cli.pending_sd_write_resp_handlers cid).isSome
  | .move, cid => (alistLookup cli.pending_sd_move_resp_handlers cid).isSome

/-- The per-kind TDP response dispatch: routes a response to the matching
`handle_tdp_sd_*_response` method. -/
def handle_tdp_response (cli : DirClient) : TdpResponse →
    Except String (DirClient × List RdpResponse)
  | .info r => handle_tdp_sd_info_response cli r
  | .create r => handle_tdp_sd_create_response cli r
  | .delete r => handle_tdp_sd_delete_response cli r
  | .list r => handle_tdp_sd_list_response cli r
  | .read r => handle_tdp_sd_read_response cli r
  | .write r => handle_tdp_sd_write_response cli r
  | .move r => handle_tdp_sd_move_response cli r

/-! ### RDPDR dispatch and the directory-sharing guard (rdpdr.rs) -/

/-- The routing outcome of `Client::handle_device_io_request`: the IRP is
served by the smart-card client or by one of the directory client's
operations. -/
inductive IoRoute
  | scard (ioctl : DeviceControlRequest)
  | dirDeviceControl (ioctl : DeviceControlRequest)
  | dirCreate
  | dirQueryInformation
  | dirClose
  | dirDirectoryControl
  | dirQueryVolumeInformation
  | dirRead
  | dirWrite
  | dirSetInformation
deriving DecidableEq, Repr

/-- Whether a route is served by the directory client. -/
def IoRoute.isDirOp : IoRoute → Bool
  | .scard _ => false
  | _ => true

/-- rdpdr.rs `Client` state relevant to dispatch: the RBAC flag lives on the
inner directory client, and announced device ids are tracked in order. -/
structure RdpdrClient where
  allow_directory_sharing : Bool
  active_device_ids : List Nat
deriving DecidableEq, Repr

/-- rdpdr.rs `Client::get_scard_device_id`: the first announced device id
(the smart card is always pushed first); an error when none is active. -/
def get_scard_device_id (cli : RdpdrClient) : Except String Nat :=
  match cli.active_device_ids with
  | id :: _ => .ok id
  | [] => .error "no active device ids"

/-- rdpdr.rs `Client::process_irp_device_control`: decodes the ioctl and
routes it to the smart-card client when it targets the smart-card device
id; a non-smart-card ioctl with directory sharing disabled is a hard
error. -/
def process_irp_device_control_route (cli : RdpdrClient) (device_io_request : DeviceIoRequest)
    (payload : Cursor) : Except String IoRoute := do
  let (ioctl, _) ← DeviceControlRequest.decode device_io_request payload
  let scard_id ← get_scard_device_id cli
  let is_smart_card_op := ioctl.header.device_id = scard_id
  if ¬ is_smart_card_op ∧ ¬ cli.allow_directory_sharing then
    .error "received a drive redirection major function when drive redirection was not allowed"
  else if is_smart_card_op then
    .ok (.scard ioctl)
  else
    .ok (.dirDeviceControl ioctl)

/-- rdpdr.rs `Client::handle_device_io_request`: any major function other
than IRP_MJ_DEVICE_CONTROL while directory sharing is disabled is a hard
error; otherwise the IRP is routed by major function, unknown majors being
invalid-data errors. -/
def handle_device_io_request_route (cli : RdpdrClient) (device_io_request : DeviceIoRequest)
    (payload : Cursor) : Except String IoRoute :=
  if device_io_request.major_function ≠ .IRP_MJ_DEVICE_CONTROL ∧
      ¬ cli.allow_directory_sharing then
    .error "received a drive redirection major function when drive redirection was not allowed"
  else
    match device_io_request.major_function with
    | .IRP_MJ_DEVICE_CONTROL => process_irp_device_control_route cli device_io_request payload
    | .IRP_MJ_CREATE => .ok .dirCreate
    | .IRP_MJ_QUERY_INFORMATION => .ok .dirQueryInformation
    | .IRP_MJ_CLOSE => .ok .dirClose
    | .IRP_MJ_DIRECTORY_CONTROL => .ok .dirDirectoryControl
    | .IRP_MJ_QUERY_VOLUME_INFORMATION => .ok .dirQueryVolumeInformation
    | .IRP_MJ_READ => .ok .dirRead
    | .IRP_MJ_WRITE => .ok .dirWrite
    | .IRP_MJ_SET_INFORMATION => .ok .dirSetInformation
    | _ => .error "got unsupported major_function in DeviceIoRequest"

/-! ### Specification-side definitions

These restate claims in the words of the specification, to be compared with
the definitions translated from the source. -/

/-- C7's conversion, in the claim's words: insert a CR before each LF that
is not immediately preceded (in the input) by a CR.  Element `i` is paired
with its predecessor (`none` at index 0). -/
def claimC7_crlf (data : List Nat) : List Nat :=
  (data.zip (none :: data.map some)).flatMap
    (fun p => if p.1 = LF ∧ p.2 ≠ some CR then [CR, p.1] else [p.1])

/-- C7's cached bytes, in the claim's words: the CRLF conversion followed by
"ensuring a trailing NUL byte", including for the empty input. -/
def claimC7_cached (data : List Nat) : List Nat :=
  let c := claimC7_crlf data
  if c.getLast? = some 0 then c else c ++ [0]

/-- The amended cached bytes for C7: a trailing NUL is ensured only when the
converted data is non-empty; the empty input caches the empty string. -/
def amendedC7_cached (data : List Nat) : List Nat :=
  let c := claimC7_crlf data
  if c = [] then [] else if c.getLast? = some 0 then c else c ++ [0]

/-- The CREATE disposition matrix of specification section 4.4, transcribed
from its words: the orthogonal existing-target / missing-target checks
first, then the per-disposition rules; any probe error code other than Nil
or DoesNotExist is a hard failure. -/
def spec_create_outcome (d : CreateDisposition) (e : TdpErrCode) (t : FileType)
    (o : CreateOptions) : CreateDecision :=
  if e = .Nil ∧ t = .Directory ∧ d = .FILE_CREATE then
    .replyStatus .STATUS_OBJECT_NAME_COLLISION
  else if e = .Nil ∧ t = .Directory ∧ o.file_non_directory_file then
    .replyStatus .STATUS_ACCESS_DENIED
  else if e = .Nil ∧ t = .File ∧ o.file_directory_file then
    .replyStatus .STATUS_NOT_A_DIRECTORY
  else if e = .DoesNotExist ∧ o.file_directory_file ∧
      (d = .FILE_OPEN_IF ∨ d = .FILE_CREATE) then
    .createDir
  else if e = .DoesNotExist ∧ o.file_directory_file then
    .replyStatus .STATUS_NO_SUCH_FILE
  else
    match d, e with
    | .FILE_SUPERSEDE, .Nil => .overwrite
    | .FILE_SUPERSEDE, .DoesNotExist => .createFile
    | .FILE_OPEN, .Nil => .openExisting
    | .FILE_OPEN, .DoesNotExist => .replyStatus .STATUS_NO_SUCH_FILE
    | .FILE_CREATE, .Nil => .replyStatus .STATUS_OBJECT_NAME_COLLISION
    | .FILE_CREATE, .DoesNotExist => .createFile
    | .FILE_OPEN_IF, .Nil => .openExisting
    | .FILE_OPEN_IF, .DoesNotExist => .createFile
    | .FILE_OVERWRITE, .Nil => .overwrite
    | .FILE_OVERWRITE, .DoesNotExist => .replyStatus .STATUS_NO_SUCH_FILE
    | .FILE_OVERWRITE_IF, .Nil => .overwrite
    | .FILE_OVERWRITE_IF, .DoesNotExist => .createFile
    | _, _ => .hardError

/-- The Information field of a CREATE response, in the words of the claim:
FILE_SUPERSEDED for dispositions SUPERSEDE / OPEN / CREATE / OVERWRITE or
for any non-success status, FILE_OPENED for FILE_OPEN_IF, and
FILE_OVERWRITTEN for FILE_OVERWRITE_IF. -/
def spec_information (d : CreateDisposition) (io : NTSTATUS) : Information :=
  if io ≠ .STATUS_SUCCESS then .FILE_SUPERSEDED
  else
    match d with
    | .FILE_SUPERSEDE => .FILE_SUPERSEDED
    | .FILE_OPEN => .FILE_SUPERSEDED
    | .FILE_CREATE => .FILE_SUPERSEDED
    | .FILE_OVERWRITE => .FILE_SUPERSEDED
    | .FILE_OPEN_IF => .FILE_OPENED
    | .FILE_OVERWRITE_IF => .FILE_OVERWRITTEN

/-- The synthetic `"."` entry of C2: the directory's own file type, size and
last-modified. -/
def dotEntry (f : FileCacheObject) : FileSystemObject :=
  { last_modified := f.fso.last_modified
    size := f.fso.size
    file_type := f.fso.file_type
    is_empty := TDP_FALSE
    path := ⟨"."⟩ }

/-- The synthetic `".."` entry of C2: type Directory, size 0, the
directory's last-modified. -/
def dotdotEntry (f : FileCacheObject) : FileSystemObject :=
  { last_modified := f.fso.last_modified
    size := 0
    file_type := .Directory
    is_empty := TDP_FALSE
    path := ⟨".."⟩ }

/-- Running `prep_next_drive_query_dir_response` `k` times against the same
request, threading the client state and collecting the responses. -/
def drive_query_dir_trace (cli : DirClient) (req : ServerDriveQueryDirectoryRequest) :
    Nat → Except String (DirClient × List RdpResponse)
  | 0 => .ok (cli, [])
  | k + 1 => do
      let r1 ← prep_next_drive_query_dir_response cli req
      let r2 ← drive_query_dir_trace r1.1 req k
      .ok (r2.1, r1.2 ++ r2.2)

/-- The response sequence C2 expects for a list of entries: one successful
response per entry carrying the requested level's record for it, then the
STATUS_NO_MORE_FILES response with no buffer. -/
def claimC2_expected (req : ServerDriveQueryDirectoryRequest)
    (fsos : List FileSystemObject) : Except String (List RdpResponse) := do
  let resps ← fsos.mapM (fun fso => do
    let buffer ← dirInfoBuffer req.file_info_class_lvl fso
    prep_drive_query_dir_response req.device_io_request .STATUS_SUCCESS (some buffer))
  let last ← prep_drive_query_dir_response req.device_io_request .STATUS_NO_MORE_FILES none
  .ok (resps ++ [last])

/-! ### Concrete fixtures for witnesses and counterexamples -/

/-- A device I/O request used by witnesses. -/
def dioEx : DeviceIoRequest :=
  { device_id := 2, file_id := 0, completion_id := 5
    major_function := .IRP_MJ_CREATE, minor_function := .IRP_MN_NONE }

/-- A CREATE request with disposition FILE_OPEN and empty create options. -/
def reqOpenEx : DeviceCreateRequest :=
  { device_io_request := dioEx
    desired_access := 0, allocation_size := 0, file_attributes := 0, shared_access := 0
    create_disposition := .FILE_OPEN
    create_options := ⟨false, false⟩
    path_length := 4, path := ⟨"\\a"⟩ }

/-- A regular-file file system object. -/
def fsoFileEx : FileSystemObject :=
  { last_modified := 1000, size := 4, file_type := .File, is_empty := 1, path := ⟨"/a"⟩ }

/-- An info probe response with err_code Nil for `fsoFileEx`. -/
def resInfoNilEx : SharedDirectoryInfoResponse :=
  { completion_id := 5, err_code := .Nil, fso := fsoFileEx }

/-- A directory file system object whose directory is shared in C2's
witness. -/
def fsoDirEx : FileSystemObject :=
  { last_modified := 2000, size := 0, file_type := .Directory, is_empty := 0, path := ⟨"/d"⟩ }

/-- The file cache object of C2's witness: a freshly created directory whose
contents have just been filled with one entry. -/
def fcoEx : FileCacheObject :=
  { path := ⟨"/d"⟩, delete_pending := false, fso := fsoDirEx
    contents := [fsoFileEx], contents_i := 0, dot_sent := false, dotdot_sent := false }

/-- A directory client whose file cache holds `fcoEx` under file id 1. -/
def dirClientEx : DirClient :=
  { DirClient.new with file_cache := [(1, fcoEx)] }

/-- A query-directory request against file id 1 at level
FileNamesInformation. -/
def qdirReqEx : ServerDriveQueryDirectoryRequest :=
  { device_io_request :=
      { device_id := 2, file_id := 1, completion_id := 6
        major_function := .IRP_MJ_DIRECTORY_CONTROL
        minor_function := .IRP_MN_QUERY_DIRECTORY }
    file_info_class_lvl := .FileNamesInformation
    initial_query := 0, path_length := 0, path := ⟨""⟩ }

/-- The file cache object of C5's failing input: its `last_modified` is the
value whose Windows-time conversion the source's own unit test pins down. -/
def fcoVolEx : FileCacheObject :=
  { path := ⟨"/d"⟩, delete_pending := false
    fso := { last_modified := 1655246166000, size := 0, file_type := .Directory
             is_empty := 0, path := ⟨"/d"⟩ }
    contents := [], contents_i := 0, dot_sent := false, dotdot_sent := false }

/-- A directory client holding `fcoVolEx` under file id 3. -/
def dirClientVolEx : DirClient :=
  { DirClient.new with file_cache := [(3, fcoVolEx)] }

/-- A query-volume-information request against file id 3 at level
FileFsVolumeInformation. -/
def qviReqEx : ServerDriveQueryVolumeInformationRequest :=
  { device_io_request :=
      { device_id := 2, file_id := 3, completion_id := 7
        major_function := .IRP_MJ_QUERY_VOLUME_INFORMATION
        minor_function := .IRP_MN_NONE }
    fs_info_class_lvl := .FileFsVolumeInformation }

/-! ### Theorems

The claim theorems, their helper lemmas, witnesses and counterexamples. -/

theorem lf_to_crlf_loop_eq_claim (data : List Nat) : ∀ prev,
    lf_to_crlf_loop prev data =
      (data.zip (prev :: data.map some)).flatMap
        (fun p => if p.1 = LF ∧ p.2 ≠ some CR then [CR, p.1] else [p.1]) := by
  induction data with
  | nil => intro prev; rfl
  | cons b rest ih =>
      intro prev
      by_cases hb : b = LF
      · subst hb
        by_cases hp : prev ≠ some CR
        · simp [lf_to_crlf_loop, hp, ih (some LF)]
        · simp only [not_not] at hp
          simp [lf_to_crlf_loop, hp, ih (some LF)]
      · simp [lf_to_crlf_loop, hb, ih (some b)]

theorem update_clipboard_converted_eq_amended (data : List Nat) :
    update_clipboard_converted data = amendedC7_cached data := by
  unfold update_clipboard_converted amendedC7_cached
  rw [lf_to_crlf_loop_eq_claim data none]
  have : claimC7_crlf data =
      (data.zip (none :: data.map some)).flatMap
        (fun p => if p.1 = LF ∧ p.2 ≠ some CR then [CR, p.1] else [p.1]) := rfl
  rw [← this]
  rcases h : (claimC7_crlf data).getLast? with - | b
  · have : claimC7_crlf data = [] := List.getLast?_eq_none_iff.mp h
    simp [this]
  · have hne : claimC7_crlf data ≠ [] := by
      intro hc; rw [hc] at h; simp at h
    by_cases hb : b = 0
    · subst hb; simp [h, hne]
    · simp [h, hne, hb]

/-- Claim C7 counterexample: on empty input the conversion caches the empty
byte string with no trailing NUL, while the claim's conversion (which always
ensures a trailing NUL) caches a single NUL byte. -/
theorem C7_counterexample :
    update_clipboard_converted [] = [] ∧ claimC7_cached [] = [0] ∧
      update_clipboard_converted [] ≠ claimC7_cached [] := by decide

/-- Claim C7 (amended): update_clipboard stores under CF_OEMTEXT the input
with CR inserted before every LF not immediately preceded by CR and, when
that conversion is non-empty and does not already end in NUL, a single NUL
appended -- the empty input is cached as the empty string; the returned
messages are exactly one FORMAT_LIST chunk advertising format id 7 only, and
input "abc" caches "abc" plus a NUL terminator. -/
theorem C7_amended :
    ∀ (cli : ClipboardClient) (data : List Nat),
      update_clipboard cli data =
        ({ cli with clipboard := alistInsert cli.clipboard CF_OEMTEXT (amendedC7_cached data) },
         [{ total_length := 14
            flags := { first := true, last := true, show_protocol := true }
            payload := [2, 0, 0, 0, 6, 0, 0, 0, 7, 0, 0, 0, 0, 0] }]) ∧
      update_clipboard_converted [97, 98, 99] = [97, 98, 99, 0] := by
  intro cli data
  refine ⟨?_, by decide⟩
  unfold update_clipboard
  rw [update_clipboard_converted_eq_amended]
  rfl

/-- Claim C9 counterexample: a chunk carrying the LAST flag without any prior
chunk having carried FIRST is accepted silently -- read returns Ok, buffers
the bytes into pending_data and never produces an error. -/
theorem C9_counterexample :
    client_read ClipboardClient.new 5 ⟨false, true, false⟩ [1, 2, 3] =
      .ok ({ ClipboardClient.new with pending_data := [1, 2, 3] }, [], []) ∧
    ∀ e, client_read ClipboardClient.new 5 ⟨false, true, false⟩ [1, 2, 3] ≠ .error e := by
  refine ⟨rfl, fun e h => ?_⟩
  rw [show client_read ClipboardClient.new 5 ⟨false, true, false⟩ [1, 2, 3] =
      .ok ({ ClipboardClient.new with pending_data := [1, 2, 3] }, [], []) from rfl] at h
  simp at h

/-- Claim C9 (amended): when a chunk without the FIRST flag arrives while no
reassembly is in progress (no pending clipboard header), Client::read
appends the chunk's bytes to pending_data and returns Ok with no messages --
a LAST without a prior FIRST is silently buffered, not a PROTOCOL error. -/
theorem C9_amended :
    ∀ (cli : ClipboardClient) (pdu_length : Nat) (flags : ChannelPDUFlags) (rest : List Nat),
      cli.pending_clipboard_header = none → flags.first = false → flags.last = true →
      client_read cli pdu_length flags rest =
        .ok ({ cli with pending_data := cli.pending_data ++ rest }, [], []) := by
  intro cli pdu_length flags rest hn hf hl
  unfold client_read client_read_finish
  simp [hf, hn]

theorem C9_witness :
    client_read ClipboardClient.new 9 ⟨false, true, false⟩ [7] =
      .ok ({ ClipboardClient.new with pending_data := [7] }, [], []) :=
  C9_amended ClipboardClient.new 9 ⟨false, true, false⟩ [7] rfl rfl rfl

/-- Claim C10: a FORMAT_DATA_RESPONSE whose header flags lack RESPONSE_OK
leaves the clipboard client state unchanged (cache, expecting-file-list
flag and accumulated file list included) and produces no outbound PDUs and
no remote-copy events. -/
theorem C10_format_data_response_fail_noop :
    ∀ (cli : ClipboardClient) (header : ClipboardPDUHeader) (payload : Cursor),
      header.msg_type = .CB_FORMAT_DATA_RESPONSE → header.msg_flags.response_ok = false →
      handle_message cli header payload = .ok (cli, [], []) := by
  intro cli header payload ht hf
  unfold handle_message
  rw [ht]
  simp [hf]

theorem C10_witness :
    handle_message ClipboardClient.new ⟨.CB_FORMAT_DATA_RESPONSE, ⟨false, true, false⟩, 4⟩
        ⟨[1, 2, 3, 4], 0⟩ =
      .ok (ClipboardClient.new, [], []) :=
  C10_format_data_response_fail_noop ClipboardClient.new
    ⟨.CB_FORMAT_DATA_RESPONSE, ⟨false, true, false⟩, 4⟩ ⟨[1, 2, 3, 4], 0⟩ rfl rfl

/-- Claim C5 (code bug): a query-volume-information request at level
FileFsVolumeInformation answers with the cache object's raw last_modified
milliseconds (1655246166000) as volume_creation_time, not the Windows
filetime conversion to_windows_time 1655246166000 = 132997197660000000 that
the claim requires (and that every other timestamp in the module uses). -/
theorem C5_volume_creation_time_bug :
    process_irp_query_volume_information dirClientVolEx qviReqEx =
      .ok (dirClientVolEx,
        [.clientDriveQueryVolumeInformation
          { device_io_reply := { device_id := 2, completion_id := 7, io_status := 0 }
            length := 35
            buffer := some (.fileFsVolumeInformation
              { volume_creation_time := 1655246166000
                volume_serial_number := 0xffff
                volume_label_length := 18
                supports_objects := false
                volume_label := "TELEPORT" }) }]) ∧
    to_windows_time 1655246166000 = 132997197660000000 ∧
    (1655246166000 : Int) ≠ to_windows_time 1655246166000 := by
  refine ⟨rfl, by decide, by decide⟩

/-- Claim C6 counterexample: a query-volume-information request whose level
field decodes to the unsupported value 2 makes the request decoder fail the
session with a hard error instead of producing a STATUS_UNSUCCESSFUL reply. -/
theorem C6_counterexample :
    process_irp_query_volume_information_raw dirClientVolEx qviReqEx.device_io_request
        ⟨u32le 2, 0⟩ =
      .error "read invalid FileSystemInformationClassLevel" := by
  rfl

theorem read_u32_u32le (v : Nat) (tail : List Nat) (hv : v < 2 ^ 32) :
    Cursor.read_u32 ⟨u32le v ++ tail, 0⟩ = .ok (v, ⟨u32le v ++ tail, 4⟩) := by
  simp only [Cursor.read_u32, Cursor.remaining, u32le, List.drop_zero, List.cons_append]
  congr 1
  congr 1
  omega

/-- Claim C6 (amended): every query-volume-information request whose
information-class level is not one of the five supported levels is rejected
while decoding the request, failing the session with a hard error; the
handler's STATUS_UNSUCCESSFUL fallback is never reached. -/
theorem C6_amended :
    ∀ (cli : DirClient) (dio : DeviceIoRequest) (v : Nat) (tail : List Nat),
      v < 2 ^ 32 →
      (∀ lvl, FileSystemInformationClassLevel.from_u32 v = some lvl →
        lvl ∉ QVI_VALID_LEVELS) →
      ∃ e, process_irp_query_volume_information_raw cli dio ⟨u32le v ++ tail, 0⟩ =
        .error e := by
  intro cli dio v tail hv hlvl
  unfold process_irp_query_volume_information_raw ServerDriveQueryVolumeInformationRequest.decode
  rw [read_u32_u32le v tail hv]
  simp only [Bind.bind, Except.bind]
  rcases h : FileSystemInformationClassLevel.from_u32 v with - | lvl
  · exact ⟨_, rfl⟩
  · have hm := hlvl lvl h
    simp [hm]

theorem C6_witness :
    ∃ e, process_irp_query_volume_information_raw DirClient.new
        { device_id := 2, file_id := 3, completion_id := 7
          major_function := .IRP_MJ_QUERY_VOLUME_INFORMATION
          minor_function := .IRP_MN_NONE } ⟨u32le 2, 0⟩ = .error e := by
  have h := C6_amended DirClient.new
    { device_id := 2, file_id := 3, completion_id := 7
      major_function := .IRP_MJ_QUERY_VOLUME_INFORMATION
      minor_function := .IRP_MN_NONE } 2 [] (by decide)
    (fun lvl h => by cases h; decide)
  simpa using h

/-- Claim C4: with directory sharing disabled, every device I/O request whose
major function is not IRP_MJ_DEVICE_CONTROL is a hard error failing the
session; an IRP_MJ_DEVICE_CONTROL addressed to a device id other than the
smart-card device id is likewise a hard error; and every successfully routed
request is a non-drive operation. -/
theorem C4_sharing_disabled_guard :
    ∀ (cli : RdpdrClient) (dio : DeviceIoRequest) (payload : Cursor),
      cli.allow_directory_sharing = false →
      (dio.major_function ≠ .IRP_MJ_DEVICE_CONTROL →
        handle_device_io_request_route cli dio payload =
          .error "received a drive redirection major function when drive redirection was not allowed") ∧
      (dio.major_function = .IRP_MJ_DEVICE_CONTROL →
        ∀ ioctl c, DeviceControlRequest.decode dio payload = .ok (ioctl, c) →
        ∀ sid, get_scard_device_id cli = .ok sid → ioctl.header.device_id ≠ sid →
        handle_device_io_request_route cli dio payload =
          .error "received a drive redirection major function when drive redirection was not allowed") ∧
      (∀ r, handle_device_io_request_route cli dio payload = .ok r → r.isDirOp = false) := by
  intro cli dio payload hd
  refine ⟨?_, ?_, ?_⟩
  · intro hm
    unfold handle_device_io_request_route
    simp [hm, hd]
  · intro hm ioctl c hdec sid hsid hne
    unfold handle_device_io_request_route
    rw [hm]
    simp only [hd]
    unfold process_irp_device_control_route
    rw [hdec, hsid]
    simp only [Bind.bind, Except.bind]
    simp [hne, hd]
  · intro r hr
    by_cases hm : dio.major_function = .IRP_MJ_DEVICE_CONTROL
    · unfold handle_device_io_request_route at hr
      rw [hm] at hr
      simp only [hd] at hr
      unfold process_irp_device_control_route at hr
      rcases hdec : DeviceControlRequest.decode dio payload with e | ⟨ioctl, c⟩
      · rw [hdec] at hr; simp only [Bind.bind, Except.bind] at hr; cases hr
      · rw [hdec] at hr
        rcases hsid : get_scard_device_id cli with e | sid
        · rw [hsid] at hr; simp only [Bind.bind, Except.bind] at hr; cases hr
        · rw [hsid] at hr
          simp only [Bind.bind, Except.bind] at hr
          by_cases hdev : ioctl.header.device_id = sid
          · simp [hdev, hd] at hr
            rw [← hr]
            rfl
          · simp [hdev, hd] at hr
    · unfold handle_device_io_request_route at hr
      simp [hm, hd] at hr

theorem C4_witness :
    handle_device_io_request_route { allow_directory_sharing := false, active_device_ids := [1] }
        { device_id := 2, file_id := 0, completion_id := 9
          major_function := .IRP_MJ_CREATE, minor_function := .IRP_MN_NONE }
        ⟨[], 0⟩ =
      .error "received a drive redirection major function when drive redirection was not allowed" :=
  (C4_sharing_disabled_guard { allow_directory_sharing := false, active_device_ids := [1] }
      { device_id := 2, file_id := 0, completion_id := 9
        major_function := .IRP_MJ_CREATE, minor_function := .IRP_MN_NONE }
      ⟨[], 0⟩ rfl).1 (by decide)

theorem create_decision_eq_spec (d : CreateDisposition) (e : TdpErrCode) (t : FileType)
    (o : CreateOptions) (he : e = .Nil ∨ e = .DoesNotExist) :
    create_decision d e t o = spec_create_outcome d e t o := by
  obtain ⟨odf, ondf⟩ := o
  rcases he with rfl | rfl <;> cases d <;> cases t <;> cases odf <;> cases ondf <;> rfl

theorem device_create_response_information (rdp_req : DeviceCreateRequest)
    (st : NTSTATUS) (fid : Nat) :
    (DeviceCreateResponse.new rdp_req st fid).information =
      spec_information rdp_req.create_disposition st := by
  unfold DeviceCreateResponse.new spec_information
  cases st <;> cases rdp_req.create_disposition <;> rfl

/-- Claim C1: once the SharedDirectoryInfoResponse probe for an IRP_MJ_CREATE
has answered with err_code Nil or DoesNotExist, the client's action matches
the disposition matrix -- FILE_OPEN on Nil opens the existing object under a
freshly generated file id with STATUS_SUCCESS, FILE_OPEN on DoesNotExist
replies STATUS_NO_SUCH_FILE, FILE_CREATE on Nil replies
STATUS_OBJECT_NAME_COLLISION, FILE_CREATE on DoesNotExist issues a TDP
create, and so on for every (disposition, err_code, file type, create
options) tuple -- and the Information field of every CREATE response equals
FILE_SUPERSEDED for dispositions SUPERSEDE/OPEN/CREATE/OVERWRITE or for any
non-success status, FILE_OPENED for FILE_OPEN_IF, and FILE_OVERWRITTEN for
FILE_OVERWRITE_IF. -/
theorem C1_create_disposition_matrix :
    ∀ (cli : DirClient) (rdp_req : DeviceCreateRequest) (res : SharedDirectoryInfoResponse),
      res.err_code = .Nil ∨ res.err_code = .DoesNotExist →
      (∀ (st : NTSTATUS) (fid : Nat),
        (DeviceCreateResponse.new rdp_req st fid).information =
          spec_information rdp_req.create_disposition st) ∧
      (match spec_create_outcome rdp_req.create_disposition res.err_code res.fso.file_type
          rdp_req.create_options with
       | .replyStatus s =>
           process_create_info_response cli rdp_req res =
             .ok (cli, [.deviceCreate (DeviceCreateResponse.new rdp_req s 0)])
       | .openExisting =>
           process_create_info_response cli rdp_req res =
             .ok ({ cli with
                      next_file_id := (cli.next_file_id + 1) % 2 ^ 32
                      file_cache := alistInsert cli.file_cache ((cli.next_file_id + 1) % 2 ^ 32)
                        (FileCacheObject.new (UnixPath.fromWindows rdp_req.path) res.fso) },
                  [.deviceCreate (DeviceCreateResponse.new rdp_req .STATUS_SUCCESS
                    ((cli.next_file_id + 1) % 2 ^ 32))])
       | .createFile =>
           process_create_info_response cli rdp_req res =
             .ok ({ cli with
                      tdp_outbox := cli.tdp_outbox ++
                        [.create { completion_id := rdp_req.device_io_request.completion_id
                                   directory_id := rdp_req.device_io_request.device_id
                                   file_type := .File
                                   path := UnixPath.fromWindows rdp_req.path }]
                      pending_sd_create_resp_handlers :=
                        alistInsert cli.pending_sd_create_resp_handlers
                          rdp_req.device_io_request.completion_id (.tdpSdCreate rdp_req) },
                  [])
       | .createDir =>
           process_create_info_response cli rdp_req res =
             .ok ({ cli with
                      tdp_outbox := cli.tdp_outbox ++
                        [.create { completion_id := rdp_req.device_io_request.completion_id
                                   directory_id := rdp_req.device_io_request.device_id
                                   file_type := .Directory
                                   path := UnixPath.fromWindows rdp_req.path }]
                      pending_sd_create_resp_handlers :=
                        alistInsert cli.pending_sd_create_resp_handlers
                          rdp_req.device_io_request.completion_id (.tdpSdCreate rdp_req) },
                  [])
       | .overwrite =>
           process_create_info_response cli rdp_req res =
             .ok ({ cli with
                      tdp_outbox := cli.tdp_outbox ++
                        [.delete { completion_id := rdp_req.device_io_request.completion_id
                                   directory_id := rdp_req.device_io_request.device_id
                                   path := UnixPath.fromWindows rdp_req.path }]
                      pending_sd_delete_resp_handlers :=
                        alistInsert cli.pending_sd_delete_resp_handlers
                          rdp_req.device_io_request.completion_id (.tdpSdOverwrite rdp_req) },
                  [])
       | .hardError =>
           process_create_info_response cli rdp_req res =
             .error "received unexpected TDP error code in SharedDirectoryInfoResponse") := by
  intro cli rdp_req res he
  refine ⟨fun st fid => device_create_response_information rdp_req st fid, ?_⟩
  have hd := create_decision_eq_spec rdp_req.create_disposition res.err_code res.fso.file_type
    rdp_req.create_options he
  rcases hx : spec_create_outcome rdp_req.create_disposition res.err_code res.fso.file_type
      rdp_req.create_options with s | - | - | - | - | -
  all_goals simp only [hx]
  all_goals unfold process_create_info_response
  all_goals rw [hd, hx]
  all_goals rfl

theorem C1_witness :
    process_create_info_response DirClient.new reqOpenEx resInfoNilEx =
      .ok ({ DirClient.new with
               next_file_id := 1
               file_cache := [(1, FileCacheObject.new (UnixPath.fromWindows reqOpenEx.path)
                 resInfoNilEx.fso)] },
           [.deviceCreate (DeviceCreateResponse.new reqOpenEx .STATUS_SUCCESS 1)]) := by
  have h := (C1_create_disposition_matrix DirClient.new reqOpenEx resInfoNilEx (Or.inl rfl)).2
  exact h

theorem alistLookup_remove_self {α : Type} (t : List (Nat × α)) (k : Nat) :
    alistLookup (alistRemove t k) k = none := by
  induction t with
  | nil => rfl
  | cons p t ih =>
      by_cases h : p.1 = k
      · simpa [alistRemove, List.filter_cons, h] using ih
      · simpa [alistRemove, alistLookup, List.filter_cons, List.find?_cons, h] using ih

theorem run_info_preserves (h : SharedDirectoryInfoResponseHandler) (cli : DirClient)
    (res : SharedDirectoryInfoResponse) (cli' : DirClient) (out : List RdpResponse)
    (he : run_info_handler h cli res = .ok (cli', out)) :
    cli'.pending_sd_info_resp_handlers = cli.pending_sd_info_resp_handlers := by
  cases h with
  | processIrpCreate rdp_req =>
      simp only [run_info_handler] at he
      unfold process_create_info_response at he
      split at he
      · exact Except.noConfusion he
      · injection he with h1; injection h1 with ha hb; subst ha; rfl
      · injection he with h1; injection h1 with ha hb; subst ha; rfl
      · unfold tdp_sd_create at he
        injection he with h1; injection h1 with ha hb; subst ha; rfl
      · unfold tdp_sd_create at he
        injection he with h1; injection h1 with ha hb; subst ha; rfl
      · unfold tdp_sd_overwrite at he
        injection he with h1; injection h1 with ha hb; subst ha; rfl
  | renameDontReplaceIfExists rdp_req rename_info io_status =>
      simp only [run_info_handler] at he
      split at he
      · unfold tdp_sd_move at he
        split at he
        · injection he with h1; injection h1 with ha hb; subst ha; rfl
        · injection he with h1; injection h1 with ha hb; subst ha; rfl
      · injection he with h1; injection h1 with ha hb; subst ha; rfl

theorem run_create_preserves (h : SharedDirectoryCreateResponseHandler) (cli : DirClient)
    (res : SharedDirectoryCreateResponse) (cli' : DirClient) (out : List RdpResponse)
    (he : run_create_handler h cli res = .ok (cli', out)) :
    cli'.pending_sd_create_resp_handlers = cli.pending_sd_create_resp_handlers := by
  cases h with
  | tdpSdCreate rdp_req =>
      simp only [run_create_handler] at he
      split at he
      · injection he with h1; injection h1 with ha hb; subst ha; rfl
      · injection he with h1; injection h1 with ha hb; subst ha; rfl

theorem run_delete_preserves (h : SharedDirectoryDeleteResponseHandler) (cli : DirClient)
    (res : SharedDirectoryDeleteResponse) (cli' : DirClient) (out : List RdpResponse)
    (he : run_delete_handler h cli res = .ok (cli', out)) :
    cli'.pending_sd_delete_resp_handlers = cli.pending_sd_delete_resp_handlers := by
  cases h with
  | tdpSdOverwrite rdp_req =>
      simp only [run_delete_handler] at he
      split at he
      · unfold tdp_sd_create at he
        injection he with h1; injection h1 with ha hb; subst ha; rfl
      · injection he with h1; injection h1 with ha hb; subst ha; rfl
  | tdpSdDelete rdp_req =>
      simp only [run_delete_handler] at he
      injection he with h1; injection h1 with ha hb; subst ha; rfl

theorem prep_next_preserves_lists (cli : DirClient) (req : ServerDriveQueryDirectoryRequest)
    (cli' : DirClient) (out : List RdpResponse)
    (he : prep_next_drive_query_dir_response cli req = .ok (cli', out)) :
    cli'.pending_sd_list_resp_handlers = cli.pending_sd_list_resp_handlers := by
  unfold prep_next_drive_query_dir_response at he
  split at he
  · split at he
    · rcases h1 : dirInfoBuffer req.file_info_class_lvl _ with e | buffer
      · rw [h1] at he; simp only [Bind.bind, Except.bind] at he; exact Except.noConfusion he
      · rw [h1] at he
        simp only [Bind.bind, Except.bind] at he
        rcases h2 : prep_drive_query_dir_response req.device_io_request .STATUS_SUCCESS
            (some buffer) with e | resp
        · rw [h2] at he; exact Except.noConfusion he
        · rw [h2] at he
          injection he with h3; injection h3 with ha hb; subst ha; rfl
    · rcases h2 : prep_drive_query_dir_response req.device_io_request .STATUS_NO_MORE_FILES
          none with e | resp
      · rw [h2] at he; simp only [Bind.bind, Except.bind] at he; exact Except.noConfusion he
      · rw [h2] at he
        simp only [Bind.bind, Except.bind] at he
        injection he with h3; injection h3 with ha hb; subst ha; rfl
  · rcases h2 : prep_file_cache_fail_drive_query_dir_response req with e | resp
    · rw [h2] at he; simp only [Bind.bind, Except.bind] at he; exact Except.noConfusion he
    · rw [h2] at he
      simp only [Bind.bind, Except.bind] at he
      injection he with h3; injection h3 with ha hb; subst ha; rfl

theorem run_list_preserves (h : SharedDirectoryListResponseHandler) (cli : DirClient)
    (res : SharedDirectoryListResponse) (cli' : DirClient) (out : List RdpResponse)
    (he : run_list_handler h cli res = .ok (cli', out)) :
    cli'.pending_sd_list_resp_handlers = cli.pending_sd_list_resp_handlers := by
  cases h with
  | queryDirectory rdp_req file_id =>
      simp only [run_list_handler] at he
      split at he
      · exact Except.noConfusion he
      · split at he
        · exact (prep_next_preserves_lists _ _ _ _ he).trans rfl
        · rcases h2 : prep_file_cache_fail_drive_query_dir_response rdp_req with e | resp
          · rw [h2] at he; simp only [Bind.bind, Except.bind] at he; exact Except.noConfusion he
          · rw [h2] at he
            simp only [Bind.bind, Except.bind] at he
            injection he with h3; injection h3 with ha hb; subst ha; rfl

theorem run_read_preserves (h : SharedDirectoryReadResponseHandler) (cli : DirClient)
    (res : SharedDirectoryReadResponse) (cli' : DirClient) (out : List RdpResponse)
    (he : run_read_handler h cli res = .ok (cli', out)) :
    cli'.pending_sd_read_resp_handlers = cli.pending_sd_read_resp_handlers := by
  cases h with
  | tdpSdRead rdp_req =>
      simp only [run_read_handler] at he
      split at he
      · injection he with h1; injection h1 with ha hb; subst ha; rfl
      · injection he with h1; injection h1 with ha hb; subst ha; rfl

theorem run_write_preserves (h : SharedDirectoryWriteResponseHandler) (cli : DirClient)
    (res : SharedDirectoryWriteResponse) (cli' : DirClient) (out : List RdpResponse)
    (he : run_write_handler h cli res = .ok (cli', out)) :
    cli'.pending_sd_write_resp_handlers = cli.pending_sd_write_resp_handlers := by
  cases h with
  | tdpSdWrite dio =>
      simp only [run_write_handler] at he
      split at he
      · injection he with h1; injection h1 with ha hb; subst ha; rfl
      · injection he with h1; injection h1 with ha hb; subst ha; rfl

theorem run_move_preserves (h : SharedDirectoryMoveResponseHandler) (cli : DirClient)
    (res : SharedDirectoryMoveResponse) (cli' : DirClient) (out : List RdpResponse)
    (he : run_move_handler h cli res = .ok (cli', out)) :
    cli'.pending_sd_move_resp_handlers = cli.pending_sd_move_resp_handlers := by
  cases h with
  | tdpSdMove rdp_req io_status =>
      simp only [run_move_handler] at he
      split at he
      · injection he with h1; injection h1 with ha hb; subst ha; rfl
      · injection he with h1; injection h1 with ha hb; subst ha; rfl

theorem handle_tdp_unregistered (cli : DirClient) (res : TdpResponse)
    (h : cli.registered res.kind res.completion_id = false) :
    handle_tdp_response cli res = .error "received invalid completion id" := by
  cases res with
  | info r =>
      simp only [DirClient.registered, TdpResponse.kind, TdpResponse.completion_id] at h
      have hn : alistLookup cli.pending_sd_info_resp_handlers r.completion_id = none := by
        rcases hx : alistLookup cli.pending_sd_info_resp_handlers r.completion_id with - | v
        · rfl
        · rw [hx] at h; simp at h
      simp only [handle_tdp_response, handle_tdp_sd_info_response, hn]
  | create r =>
      simp only [DirClient.registered, TdpResponse.kind, TdpResponse.completion_id] at h
      have hn : alistLookup cli.pending_sd_create_resp_handlers r.completion_id = none := by
        rcases hx : alistLookup cli.pending_sd_create_resp_handlers r.completion_id with - | v
        · rfl
        · rw [hx] at h; simp at h
      simp only [handle_tdp_response, handle_tdp_sd_create_response, hn]
  | delete r =>
      simp only [DirClient.registered, TdpResponse.kind, TdpResponse.completion_id] at h
      have hn : alistLookup cli.pending_sd_delete_resp_handlers r.completion_id = none := by
        rcases hx : alistLookup cli.pending_sd_delete_resp_handlers r.completion_id with - | v
        · rfl
        · rw [hx] at h; simp at h
      simp only [handle_tdp_response, handle_tdp_sd_delete_response, hn]
  | list r =>
      simp only [DirClient.registered, TdpResponse.kind, TdpResponse.completion_id] at h
      have hn : alistLookup cli.pending_sd_list_resp_handlers r.completion_id = none := by
        rcases hx : alistLookup cli.pending_sd_list_resp_handlers r.completion_id with - | v
        · rfl
        · rw [hx] at h; simp at h
      simp only [handle_tdp_response, handle_tdp_sd_list_response, hn]
  | read r =>
      simp only [DirClient.registered, TdpResponse.kind, TdpResponse.completion_id] at h
      have hn : alistLookup cli.pending_sd_read_resp_handlers r.completion_id = none := by
        rcases hx : alistLookup cli.pending_sd_read_resp_handlers r.completion_id with - | v
        · rfl
        · rw [hx] at h; simp at h
      simp only [handle_tdp_response, handle_tdp_sd_read_response, hn]
  | write r =>
      simp only [DirClient.registered, TdpResponse.kind, TdpResponse.completion_id] at h
      have hn : alistLookup cli.pending_sd_write_resp_handlers r.completion_id = none := by
        rcases hx : alistLookup cli.pending_sd_write_resp_handlers r.completion_id with - | v
        · rfl
        · rw [hx] at h; simp at h
      simp only [handle_tdp_response, handle_tdp_sd_write_response, hn]
  | move r =>
      simp only [DirClient.registered, TdpResponse.kind, TdpResponse.completion_id] at h
      have hn : alistLookup cli.pending_sd_move_resp_handlers r.completion_id = none := by
        rcases hx : alistLookup cli.pending_sd_move_resp_handlers r.completion_id with - | v
        · rfl
        · rw [hx] at h; simp at h
      simp only [handle_tdp_response, handle_tdp_sd_move_response, hn]

theorem handle_tdp_ok_unregisters (cli : DirClient) (res : TdpResponse) (cli' : DirClient)
    (out : List RdpResponse) (h : handle_tdp_response cli res = .ok (cli', out)) :
    cli'.registered res.kind res.completion_id = false := by
  cases res with
  | info r =>
      simp only [handle_tdp_response, handle_tdp_sd_info_response] at h
      split at h
      · have := run_info_preserves _ _ _ _ _ h
        simp only [DirClient.registered, TdpResponse.kind, TdpResponse.completion_id, this,
          alistLookup_remove_self, Option.isSome_none]
      · exact Except.noConfusion h
  | create r =>
      simp only [handle_tdp_response, handle_tdp_sd_create_response] at h
      split at h
      · have := run_create_preserves _ _ _ _ _ h
        simp only [DirClient.registered, TdpResponse.kind, TdpResponse.completion_id, this,
          alistLookup_remove_self, Option.isSome_none]
      · exact Except.noConfusion h
  | delete r =>
      simp only [handle_tdp_response, handle_tdp_sd_delete_response] at h
      split at h
      · have := run_delete_preserves _ _ _ _ _ h
        simp only [DirClient.registered, TdpResponse.kind, TdpResponse.completion_id, this,
          alistLookup_remove_self, Option.isSome_none]
      · exact Except.noConfusion h
  | list r =>
      simp only [handle_tdp_response, handle_tdp_sd_list_response] at h
      split at h
      · have := run_list_preserves _ _ _ _ _ h
        simp only [DirClient.registered, TdpResponse.kind, TdpResponse.completion_id, this,
          alistLookup_remove_self, Option.isSome_none]
      · exact Except.noConfusion h
  | read r =>
      simp only [handle_tdp_response, handle_tdp_sd_read_response] at h
      split at h
      · have := run_read_preserves _ _ _ _ _ h
        simp only [DirClient.registered, TdpResponse.kind, TdpResponse.completion_id, this,
          alistLookup_remove_self, Option.isSome_none]
      · exact Except.noConfusion h
  | write r =>
      simp only [handle_tdp_response, handle_tdp_sd_write_response] at h
      split at h
      · have := run_write_preserves _ _ _ _ _ h
        simp only [DirClient.registered, TdpResponse.kind, TdpResponse.completion_id, this,
          alistLookup_remove_self, Option.isSome_none]
      · exact Except.noConfusion h
  | move r =>
      simp only [handle_tdp_response, handle_tdp_sd_move_response] at h
      split at h
      · have := run_move_preserves _ _ _ _ _ h
        simp only [DirClient.registered, TdpResponse.kind, TdpResponse.completion_id, this,
          alistLookup_remove_self, Option.isSome_none]
      · exact Except.noConfusion h

/-- Claim C3: delivering a TDP response whose completion id has no registered
continuation in its kind's table is a hard error that fails the session; a
successful delivery removes the continuation from the table before running
it, so the same completion id delivered again for the same kind is again a
hard error -- each registered continuation runs at most once. -/
theorem C3_completion_correlation :
    ∀ (cli : DirClient) (res : TdpResponse),
      (cli.registered res.kind res.completion_id = false →
        handle_tdp_response cli res = .error "received invalid completion id") ∧
      (∀ (cli' : DirClient) (out : List RdpResponse),
        handle_tdp_response cli res = .ok (cli', out) →
        cli'.registered res.kind res.completion_id = false ∧
        ∀ res2 : TdpResponse, res2.kind = res.kind →
          res2.completion_id = res.completion_id →
          handle_tdp_response cli' res2 = .error "received invalid completion id") := by
  intro cli res
  refine ⟨handle_tdp_unregistered cli res, fun cli' out h => ?_⟩
  have hu := handle_tdp_ok_unregisters cli res cli' out h
  refine ⟨hu, fun res2 hk hc => ?_⟩
  exact handle_tdp_unregistered cli' res2 (by rw [hk, hc]; exact hu)

theorem C3_witness :
    handle_tdp_response DirClient.new (.delete { completion_id := 5, err_code := .Nil }) =
      .error "received invalid completion id" :=
  (C3_completion_correlation DirClient.new
      (.delete { completion_id := 5, err_code := .Nil })).1 (by decide)

theorem chunkify_go_spec (sp : Bool) (total : Nat) :
    ∀ (fuel : Nat) (inner : List Nat) (first : Bool),
      inner ≠ [] → inner.length ≤ fuel →
      chunkify_go sp total fuel inner first ≠ [] ∧
      (∀ c ∈ chunkify_go sp total fuel inner first,
        c.total_length = total ∧ c.flags.show_protocol = sp ∧
          c.payload.length ≤ CHANNEL_CHUNK_LEGNTH) ∧
      (∀ (i : Nat) (h : i < (chunkify_go sp total fuel inner first).length),
        (((chunkify_go sp total fuel inner first).get ⟨i, h⟩).flags.first = true ↔
          (first = true ∧ i = 0)) ∧
        (((chunkify_go sp total fuel inner first).get ⟨i, h⟩).flags.last = true ↔
          i = (chunkify_go sp total fuel inner first).length - 1)) := by
  intro fuel
  induction fuel with
  | zero =>
      intro inner first hne hlen
      exact absurd (List.eq_nil_of_length_eq_zero (Nat.le_zero.mp hlen)) hne
  | succ fuel ih =>
      intro inner first hne hlen
      obtain ⟨b, rest, rfl⟩ := List.exists_cons_of_ne_nil hne
      have h2 : 0 < CHANNEL_CHUNK_LEGNTH := by norm_num [CHANNEL_CHUNK_LEGNTH]
      set i0 := min (b :: rest).length CHANNEL_CHUNK_LEGNTH with hi0
      have h1 : 0 < (b :: rest).length := by simp
      have hi1 : 1 ≤ i0 := by omega
      set L := (b :: rest).drop i0 with hLdef
      have hstep : chunkify_go sp total (fuel + 1) (b :: rest) first =
          ⟨total, ⟨first, decide (L = []), sp⟩, (b :: rest).take i0⟩ ::
            chunkify_go sp total fuel L false := rfl
      have htake : ((b :: rest).take i0).length ≤ CHANNEL_CHUNK_LEGNTH := by
        simp only [List.length_take]
        omega
      by_cases hL : L = []
      · rw [hstep, hL]
        have hnil : chunkify_go sp total fuel ([] : List Nat) false = [] := by
          cases fuel <;> rfl
        rw [hnil]
        refine ⟨by simp, ?_, ?_⟩
        · intro c hc
          simp only [List.mem_singleton] at hc
          subst hc
          exact ⟨rfl, rfl, htake⟩
        · intro i h
          simp only [List.length_singleton] at h
          have hz : i = 0 := by omega
          subst hz
          simp
      · have hdlen : L.length ≤ fuel := by
          rw [hLdef]
          simp only [List.length_drop]
          omega
        obtain ⟨tne, tmem, tidx⟩ := ih L false hL hdlen
        have hlen2 : 0 < (chunkify_go sp total fuel L false).length := List.length_pos.mpr tne
        rw [hstep]
        refine ⟨by simp, ?_, ?_⟩
        · intro c hc
          rcases List.mem_cons.mp hc with rfl | hc
          · exact ⟨rfl, rfl, htake⟩
          · exact tmem c hc
        · intro i h
          match i with
          | 0 =>
              refine ⟨by simp, ?_⟩
              simp only [List.get_cons_zero, List.length_cons, Nat.add_sub_cancel]
              simp [hL]
              omega
          | j + 1 =>
              simp only [List.length_cons] at h
              have hj : j < (chunkify_go sp total fuel L false).length := by omega
              obtain ⟨tf, tl⟩ := tidx j hj
              refine ⟨?_, ?_⟩
              · simp only [List.get_cons_succ]
                rw [tf]
                simp
              · simp only [List.get_cons_succ, List.length_cons, Nat.add_sub_cancel]
                rw [tl]
                omega

/-- Claim C8: every chunk emitted by encode_message carries the same
total_length, namely the full inner PDU length (8-byte clipboard header plus
payload) as a u32; the FIRST flag is on exactly the first chunk and LAST on
exactly the last one (LAST iff no bytes remain); every chunk carries
SHOW_PROTOCOL iff the message type is CB_CLIP_CAPS, CB_FORMAT_LIST,
CB_FORMAT_DATA_REQUEST or CB_FORMAT_DATA_RESPONSE; and no chunk payload
exceeds CHANNEL_CHUNK_LEGNTH = 16384 bytes. -/
theorem C8_chunking_invariants :
    ∀ (msg_type : ClipboardPDUType) (payload : List Nat),
      encode_message msg_type payload ≠ [] ∧
      (∀ c ∈ encode_message msg_type payload,
        c.total_length = (8 + payload.length) % 2 ^ 32 ∧
          c.flags.show_protocol = show_protocol_for msg_type ∧
          c.payload.length ≤ CHANNEL_CHUNK_LEGNTH) ∧
      (∀ (i : Nat) (h : i < (encode_message msg_type payload).length),
        (((encode_message msg_type payload).get ⟨i, h⟩).flags.first = true ↔ i = 0) ∧
        (((encode_message msg_type payload).get ⟨i, h⟩).flags.last = true ↔
          i = (encode_message msg_type payload).length - 1)) ∧
      (show_protocol_for msg_type = true ↔
        (msg_type = .CB_CLIP_CAPS ∨ msg_type = .CB_FORMAT_LIST ∨
          msg_type = .CB_FORMAT_DATA_REQUEST ∨ msg_type = .CB_FORMAT_DATA_RESPONSE)) := by
  intro msg_type payload
  have hlen : (ClipboardPDUHeader.encode
      ⟨msg_type, encode_message_flags msg_type, payload.length⟩ ++ payload).length =
      8 + payload.length := by
    simp only [List.length_append, ClipboardPDUHeader.encode, u16le, u32le]
    simp
    try omega
  have hne : ClipboardPDUHeader.encode
      ⟨msg_type, encode_message_flags msg_type, payload.length⟩ ++ payload ≠ [] := by
    intro hc
    rw [hc] at hlen
    simp only [List.length_nil] at hlen
    omega
  have hEM : encode_message msg_type payload =
      chunkify_go (show_protocol_for msg_type)
        ((ClipboardPDUHeader.encode
          ⟨msg_type, encode_message_flags msg_type, payload.length⟩ ++ payload).length % 2 ^ 32)
        (ClipboardPDUHeader.encode
          ⟨msg_type, encode_message_flags msg_type, payload.length⟩ ++ payload).length
        (ClipboardPDUHeader.encode
          ⟨msg_type, encode_message_flags msg_type, payload.length⟩ ++ payload) true := rfl
  obtain ⟨tne, tmem, tidx⟩ := chunkify_go_spec (show_protocol_for msg_type)
    ((ClipboardPDUHeader.encode
      ⟨msg_type, encode_message_flags msg_type, payload.length⟩ ++ payload).length % 2 ^ 32)
    (ClipboardPDUHeader.encode
      ⟨msg_type, encode_message_flags msg_type, payload.length⟩ ++ payload).length
    (ClipboardPDUHeader.encode
      ⟨msg_type, encode_message_flags msg_type, payload.length⟩ ++ payload) true hne le_rfl
  rw [hEM]
  refine ⟨tne, ?_, ?_, ?_⟩
  · intro c hc
    obtain ⟨h1, h2, h3⟩ := tmem c hc
    rw [hlen] at h1
    exact ⟨h1, h2, h3⟩
  · intro i h
    obtain ⟨tf, tl⟩ := tidx i h
    exact ⟨by rw [tf]; simp, tl⟩
  · cases msg_type <;> simp [show_protocol_for]

theorem C8_witness :
    ((encode_message .CB_CLIP_CAPS [1]).get ⟨0, by decide⟩).flags.first = true ∧
    ((encode_message .CB_CLIP_CAPS [1]).get ⟨0, by decide⟩).flags.last = true ∧
    ((encode_message .CB_CLIP_CAPS [1]).get ⟨0, by decide⟩).total_length = 9 := by
  obtain ⟨-, hmem, hidx, -⟩ := C8_chunking_invariants .CB_CLIP_CAPS [1]
  obtain ⟨hf, hl⟩ := hidx 0 (by decide)
  refine ⟨hf.mpr rfl, hl.mpr (by decide), ?_⟩
  have := (hmem ((encode_message .CB_CLIP_CAPS [1]).get ⟨0, by decide⟩)
    (List.get_mem _ _ _)).1
  simpa using this

theorem alistLookup_update_self {α : Type} (t : List (Nat × α)) (k : Nat) (v w : α)
    (h : alistLookup t k = some v) : alistLookup (alistUpdate t k w) k = some w := by
  induction t with
  | nil => simp [alistLookup] at h
  | cons p t ih =>
      by_cases hp : p.1 = k
      · simp [alistLookup, alistUpdate, List.find?_cons, hp]
      · simp only [alistLookup, List.find?_cons] at h
        simp only [alistUpdate, List.map_cons, if_neg hp]
        simp only [alistLookup, List.find?_cons]
        have hb : (p.1 == k) = false := by simp [hp]
        rw [hb] at h ⊢
        exact ih h

theorem dir_success_resp_ok (lvl : FileInformationClassLevel)
    (hlvl : lvl ∈ ([.FileBothDirectoryInformation, .FileFullDirectoryInformation,
      .FileNamesInformation, .FileDirectoryInformation] : List FileInformationClassLevel))
    (fso : FileSystemObject) (hsz : fso.size < 2 ^ 63) (dio : DeviceIoRequest) :
    ∃ respS,
      (do
        let buffer ← dirInfoBuffer lvl fso
        prep_drive_query_dir_response dio .STATUS_SUCCESS (some buffer)) = .ok respS := by
  simp only [List.mem_cons, List.not_mem_nil, or_false] at hlvl
  rcases hlvl with rfl | rfl | rfl | rfl
  · unfold dirInfoBuffer FileBothDirectoryInformation.from i64_try_from_u64
    rw [if_pos hsz]
    exact ⟨_, rfl⟩
  · unfold dirInfoBuffer FileFullDirectoryInformation.from i64_try_from_u64
    rw [if_pos hsz]
    exact ⟨_, rfl⟩
  · exact ⟨_, rfl⟩
  · unfold dirInfoBuffer FileDirectoryInformation.from i64_try_from_u64
    rw [if_pos hsz]
    exact ⟨_, rfl⟩

theorem prep_next_step_some (cli : DirClient) (req : ServerDriveQueryDirectoryRequest)
    (fco : FileCacheObject) (fso : FileSystemObject) (fco' : FileCacheObject)
    (respS : RdpResponse)
    (hlook : alistLookup cli.file_cache req.device_io_request.file_id = some fco)
    (hnext : fco.next = (some fso, fco'))
    (hresp : (do
      let buffer ← dirInfoBuffer req.file_info_class_lvl fso
      prep_drive_query_dir_response req.device_io_request .STATUS_SUCCESS (some buffer)) =
      .ok respS) :
    prep_next_drive_query_dir_response cli req =
      .ok ({ cli with
              file_cache := alistUpdate cli.file_cache req.device_io_request.file_id fco' },
           [respS]) := by
  simp only [prep_next_drive_query_dir_response, hlook, hnext]
  rcases hb : dirInfoBuffer req.file_info_class_lvl fso with e | buf
  · rw [hb] at hresp
    simp only [Bind.bind, Except.bind] at hresp
    exact Except.noConfusion hresp
  · rw [hb] at hresp
    simp only [Bind.bind, Except.bind] at hresp ⊢
    rcases hr : prep_drive_query_dir_response req.device_io_request .STATUS_SUCCESS (some buf)
        with e | resp
    · rw [hr] at hresp
      exact Except.noConfusion hresp
    · rw [hr] at hresp
      injection hresp with h1
      subst h1
      rfl

theorem prep_next_step_none (cli : DirClient) (req : ServerDriveQueryDirectoryRequest)
    (fco : FileCacheObject) (fco' : FileCacheObject)
    (hlook : alistLookup cli.file_cache req.device_io_request.file_id = some fco)
    (hnext : fco.next = (none, fco')) :
    prep_next_drive_query_dir_response cli req =
      .ok ({ cli with
              file_cache := alistUpdate cli.file_cache req.device_io_request.file_id fco' },
           [.clientDriveQueryDirectory
              ⟨DeviceIoResponse.new req.device_io_request
                (NTSTATUS.to_u32 .STATUS_NO_MORE_FILES), 0, none⟩]) := by
  simp only [prep_next_drive_query_dir_response, hlook, hnext]
  rfl

theorem trace_succ (cli : DirClient) (req : ServerDriveQueryDirectoryRequest) (k : Nat)
    (cli1 cli2 : DirClient) (out1 out2 : List RdpResponse)
    (h1 : prep_next_drive_query_dir_response cli req = .ok (cli1, out1))
    (h2 : drive_query_dir_trace cli1 req k = .ok (cli2, out2)) :
    drive_query_dir_trace cli req (k + 1) = .ok (cli2, out1 ++ out2) := by
  simp only [drive_query_dir_trace]
  rw [h1]
  simp only [Bind.bind, Except.bind]
  rw [h2]

theorem claimC2_expected_cons (req : ServerDriveQueryDirectoryRequest)
    (fso : FileSystemObject) (rest : List FileSystemObject) (respS : RdpResponse)
    (resps : List RdpResponse)
    (hf : (do
      let buffer ← dirInfoBuffer req.file_info_class_lvl fso
      prep_drive_query_dir_response req.device_io_request .STATUS_SUCCESS (some buffer)) =
      .ok respS)
    (h : claimC2_expected req rest = .ok resps) :
    claimC2_expected req (fso :: rest) = .ok (respS :: resps) := by
  unfold claimC2_expected at h ⊢
  rw [List.mapM_cons, hf]
  rcases hm : rest.mapM (fun fso => do
      let buffer ← dirInfoBuffer req.file_info_class_lvl fso
      prep_drive_query_dir_response req.device_io_request .STATUS_SUCCESS (some buffer))
      with e | resps0
  · rw [hm] at h
    simp only [Bind.bind, Except.bind] at h
    exact Except.noConfusion h
  · rw [hm] at h ⊢
    simp only [Bind.bind, Except.bind, pure, Except.pure] at h ⊢
    rcases hl : prep_drive_query_dir_response req.device_io_request .STATUS_NO_MORE_FILES none
        with e | last
    · rw [hl] at h
      exact Except.noConfusion h
    · rw [hl] at h
      injection h with h1
      subst h1
      rfl

theorem trace_contents (req : ServerDriveQueryDirectoryRequest)
    (hlvl : req.file_info_class_lvl ∈
      ([.FileBothDirectoryInformation, .FileFullDirectoryInformation,
        .FileNamesInformation, .FileDirectoryInformation] : List FileInformationClassLevel)) :
    ∀ (rest pre : List FileSystemObject) (cli : DirClient) (fco : FileCacheObject),
      alistLookup cli.file_cache req.device_io_request.file_id = some fco →
      fco.dot_sent = true → fco.dotdot_sent = true →
      fco.contents = pre ++ rest → fco.contents_i = pre.length →
      (∀ fso ∈ rest, fso.size < 2 ^ 63) →
      ∃ cli' resps, drive_query_dir_trace cli req (rest.length + 1) = .ok (cli', resps) ∧
        claimC2_expected req rest = .ok resps := by
  intro rest
  induction rest with
  | nil =>
      intro pre cli fco hlook hdot hdd hcont hci _
      have hnext : fco.next = (none, fco) := by
        unfold FileCacheObject.next
        rw [hdot, hdd]
        have hnlt : ¬ fco.contents_i < fco.contents.length := by
          rw [hci, hcont]
          simp
        simp [hnlt]
      have h1 := prep_next_step_none cli req fco fco hlook hnext
      refine ⟨_, _, trace_succ cli req 0 _ _ _ [] h1 rfl, ?_⟩
      rfl
  | cons fso rest' ih =>
      intro pre cli fco hlook hdot hdd hcont hci hsz
      have hlt : fco.contents_i < fco.contents.length := by
        rw [hci, hcont]
        simp
      have hget : fco.contents.get ⟨fco.contents_i, hlt⟩ = fso := by
        rcases fco with ⟨p, dp, fs, contents, ci, ds, dds⟩
        dsimp only at hcont hci hlt ⊢
        subst hcont hci
        have h1 : (pre ++ fso :: rest').get ⟨pre.length, hlt⟩ =
            (pre ++ fso :: rest')[pre.length] := rfl
        rw [h1, List.getElem_append_right (by omega)]
        simp
      have hnext : fco.next = (some fso, { fco with contents_i := fco.contents_i + 1 }) := by
        unfold FileCacheObject.next
        rw [hdot, hdd, dif_pos hlt, hget]
        simp
      obtain ⟨respS, hresp⟩ := dir_success_resp_ok req.file_info_class_lvl hlvl fso
        (hsz fso (by simp)) req.device_io_request
      have h1 := prep_next_step_some cli req fco fso _ respS hlook hnext hresp
      have hlook2 := alistLookup_update_self cli.file_cache req.device_io_request.file_id fco
        { fco with contents_i := fco.contents_i + 1 } hlook
      obtain ⟨cli', resps', htr, hex⟩ := ih (pre ++ [fso])
        { cli with
            file_cache := alistUpdate cli.file_cache req.device_io_request.file_id
              { fco with contents_i := fco.contents_i + 1 } }
        { fco with contents_i := fco.contents_i + 1 }
        hlook2 hdot hdd (by simpa using hcont) (by simp [hci])
        (fun x hx => hsz x (by simp [hx]))
      refine ⟨cli', respS :: resps', ?_,
        claimC2_expected_cons req fso rest' respS resps' hresp hex⟩
      have h2 := trace_succ cli req (rest'.length + 1) _ cli' [respS] resps' h1 htr
      simpa using h2

theorem claimC2_expected_split (req : ServerDriveQueryDirectoryRequest)
    (fsos : List FileSystemObject) (resps : List RdpResponse)
    (h : claimC2_expected req fsos = .ok resps) :
    ∃ front, resps = front ++ [.clientDriveQueryDirectory
      ⟨DeviceIoResponse.new req.device_io_request
        (NTSTATUS.to_u32 .STATUS_NO_MORE_FILES), 0, none⟩] := by
  unfold claimC2_expected at h
  rcases hm : fsos.mapM (fun fso => do
      let buffer ← dirInfoBuffer req.file_info_class_lvl fso
      prep_drive_query_dir_response req.device_io_request .STATUS_SUCCESS (some buffer))
      with e | resps0
  · rw [hm] at h
    simp only [Bind.bind, Except.bind] at h
    exact Except.noConfusion h
  · rw [hm] at h
    simp only [Bind.bind, Except.bind] at h
    have hl : prep_drive_query_dir_response req.device_io_request .STATUS_NO_MORE_FILES none =
        .ok (.clientDriveQueryDirectory
          ⟨DeviceIoResponse.new req.device_io_request
            (NTSTATUS.to_u32 .STATUS_NO_MORE_FILES), 0, none⟩) := rfl
    rw [hl] at h
    injection h with h1
    exact ⟨resps0, h1.symm⟩

/-- Claim C2: for a directory cache object whose contents were just filled
(dot and dotdot not yet sent, iteration index 0), running
prep_next_drive_query_dir_response n+3 times yields one successful response
for the synthetic "." entry, one for the synthetic ".." entry, then one for
each of the n cached contents entries in insertion order, each carrying the
requested information level's record; the final response has IoStatus
STATUS_NO_MORE_FILES, carries no information buffer, and its encoding ends
in exactly one trailing padding byte. -/
theorem C2_query_directory_iteration
    (cli : DirClient) (req : ServerDriveQueryDirectoryRequest) (fco : FileCacheObject)
    (hlook : alistLookup cli.file_cache req.device_io_request.file_id = some fco)
    (hdot : fco.dot_sent = false) (hdd : fco.dotdot_sent = false)
    (hci : fco.contents_i = 0)
    (hlvl : req.file_info_class_lvl ∈
      ([.FileBothDirectoryInformation, .FileFullDirectoryInformation,
        .FileNamesInformation, .FileDirectoryInformation] : List FileInformationClassLevel))
    (hszd : fco.fso.size < 2 ^ 63)
    (hsz : ∀ fso ∈ fco.contents, fso.size < 2 ^ 63) :
    ∃ cli' resps,
      drive_query_dir_trace cli req (fco.contents.length + 3) = .ok (cli', resps) ∧
      claimC2_expected req (dotEntry fco :: dotdotEntry fco :: fco.contents) = .ok resps ∧
      resps.getLast? = some (.clientDriveQueryDirectory
        ⟨DeviceIoResponse.new req.device_io_request
          (NTSTATUS.to_u32 .STATUS_NO_MORE_FILES), 0, none⟩) ∧
      (⟨DeviceIoResponse.new req.device_io_request
          (NTSTATUS.to_u32 .STATUS_NO_MORE_FILES), 0, none⟩ :
        ClientDriveQueryDirectoryResponse).buffer = none ∧
      (⟨DeviceIoResponse.new req.device_io_request
          (NTSTATUS.to_u32 .STATUS_NO_MORE_FILES), 0, none⟩ :
        ClientDriveQueryDirectoryResponse).encode =
        (DeviceIoResponse.new req.device_io_request
          (NTSTATUS.to_u32 .STATUS_NO_MORE_FILES)).encode ++ u32le 0 ++ [0] := by
  have hnext1 : fco.next = (some (dotEntry fco), { fco with dot_sent := true }) := by
    unfold FileCacheObject.next dotEntry
    rw [hdot]
    simp
  obtain ⟨respD, hrespD⟩ := dir_success_resp_ok req.file_info_class_lvl hlvl (dotEntry fco)
    hszd req.device_io_request
  have h1 := prep_next_step_some cli req fco (dotEntry fco) _ respD hlook hnext1 hrespD
  have hlook2 := alistLookup_update_self cli.file_cache req.device_io_request.file_id fco
    { fco with dot_sent := true } hlook
  have hnext2 : ({ fco with dot_sent := true } : FileCacheObject).next =
      (some (dotdotEntry fco), { fco with dot_sent := true, dotdot_sent := true }) := by
    unfold FileCacheObject.next dotdotEntry
    simp [hdd]
  obtain ⟨respDD, hrespDD⟩ := dir_success_resp_ok req.file_info_class_lvl hlvl
    (dotdotEntry fco) (by show (0:Nat) < 2 ^ 63; norm_num) req.device_io_request
  have h2 := prep_next_step_some
    ({ cli with file_cache := alistUpdate cli.file_cache req.device_io_request.file_id ({ fco with dot_sent := true }) })
    req ({ fco with dot_sent := true }) (dotdotEntry fco) _ respDD hlook2 hnext2 hrespDD
  have hlook3 := alistLookup_update_self
    (alistUpdate cli.file_cache req.device_io_request.file_id ({ fco with dot_sent := true }))
    req.device_io_request.file_id ({ fco with dot_sent := true })
    ({ fco with dot_sent := true, dotdot_sent := true }) hlook2
  obtain ⟨cli', resps', htr, hexp⟩ := trace_contents req hlvl fco.contents []
    ({ cli with file_cache := alistUpdate (alistUpdate cli.file_cache req.device_io_request.file_id ({ fco with dot_sent := true })) req.device_io_request.file_id ({ fco with dot_sent := true, dotdot_sent := true }) })
    ({ fco with dot_sent := true, dotdot_sent := true })
    hlook3 rfl rfl (by simp) (by simp [hci]) hsz
  have t2 := trace_succ _ req (fco.contents.length + 1) _ cli' [respDD] resps' h2 htr
  have t1 := trace_succ cli req (fco.contents.length + 2) _ cli' [respD]
    ([respDD] ++ resps') h1 t2
  have e2 := claimC2_expected_cons req (dotdotEntry fco) fco.contents respDD resps' hrespDD hexp
  have e1 := claimC2_expected_cons req (dotEntry fco) (dotdotEntry fco :: fco.contents) respD
    (respDD :: resps') hrespD e2
  obtain ⟨front, hfr⟩ := claimC2_expected_split req fco.contents resps' hexp
  refine ⟨cli', respD :: respDD :: resps', by simpa using t1, e1, ?_, rfl, ?_⟩
  · rw [hfr]
    have : respD :: respDD :: (front ++ [(.clientDriveQueryDirectory
        ⟨DeviceIoResponse.new req.device_io_request
          (NTSTATUS.to_u32 .STATUS_NO_MORE_FILES), 0, none⟩ : RdpResponse)]) =
        (respD :: respDD :: front) ++ [.clientDriveQueryDirectory
        ⟨DeviceIoResponse.new req.device_io_request
          (NTSTATUS.to_u32 .STATUS_NO_MORE_FILES), 0, none⟩] := by simp
    rw [this]
    exact List.getLast?_concat _
  · simp [ClientDriveQueryDirectoryResponse.encode, DeviceIoResponse.new]

theorem C2_witness :
    alistLookup dirClientEx.file_cache qdirReqEx.device_io_request.file_id = some fcoEx ∧
    (∃ cli' resps,
      drive_query_dir_trace dirClientEx qdirReqEx (fcoEx.contents.length + 3) =
        .ok (cli', resps) ∧
      claimC2_expected qdirReqEx (dotEntry fcoEx :: dotdotEntry fcoEx :: fcoEx.contents) =
        .ok resps ∧
      resps.getLast? = some (.clientDriveQueryDirectory
        ⟨DeviceIoResponse.new qdirReqEx.device_io_request
          (NTSTATUS.to_u32 .STATUS_NO_MORE_FILES), 0, none⟩) ∧
      (⟨DeviceIoResponse.new qdirReqEx.device_io_request
          (NTSTATUS.to_u32 .STATUS_NO_MORE_FILES), 0, none⟩ :
        ClientDriveQueryDirectoryResponse).buffer = none ∧
      (⟨DeviceIoResponse.new qdirReqEx.device_io_request
          (NTSTATUS.to_u32 .STATUS_NO_MORE_FILES), 0, none⟩ :
        ClientDriveQueryDirectoryResponse).encode =
        (DeviceIoResponse.new qdirReqEx.device_io_request
          (NTSTATUS.to_u32 .STATUS_NO_MORE_FILES)).encode ++ u32le 0 ++ [0]) :=
  ⟨by decide, C2_query_directory_iteration dirClientEx qdirReqEx fcoEx (by decide) (by decide)
    (by decide) (by decide) (by decide) (by decide) (by decide)⟩

end Teleport
